import Mathlib

/-!
# Surface-to-bitmap readback (libs/hwui/OpenGLReadback.cpp)

A shallow embedding of `OpenGLReadback::copySurfaceInto`, `copyFromPrivateHandle`,
`OpenGLReadback::copyGraphicBufferInto`, `copyTextureInto` and
`OpenGLReadbackImpl::copyImageInto`.

Conventions of the embedding.

* Every function takes the mutable world (`World`: the call log of the collaborators,
  the memory behind the destination bitmap's pixel pointer, the GL name counter) and
  returns the `CopyResult` together with the world it leaves behind.
* The answers of the collaborators that the code only consumes (the system property,
  EGL, `glGetError`, the pixels the GPU produces) are fields of `Env`.
* C++ `int` and `size_t` values are integers. `size_t` is 64 bit and its operands here
  are 32 bit `int`s, so the products of non-negative operands do not wrap; a negative
  crop offset wraps in `size_t` and wraps back in the pointer addition, so an address is
  the base plus the signed byte offset. Memory is therefore a map from the signed byte
  offset (relative to `hnd->base`, respectively to `bitmap->getPixels()`) to the byte.
  The two `int` sums of the range check (line 167) are taken modulo 2^32 (`toInt32`), and
  the conversion of a crop coordinate to `int` (lines 161-162) is `floatToInt`.
* `float` values are exact: the entries of a `Matrix4` are rationals and the coordinates
  of a `Rect` are integers (the source itself assumes "that the floats in srcRect are
  actually integers").
-/

namespace Readback

/-! ## Data model -/

/-- The result codes of a readback (`CopyResult` of Readback.h, as named in this source). -/
inductive CopyResult
  | Success
  | SourceEmpty
  | SourceInvalid
  | DestinationInvalid
  | Timeout
  | UnknownError
  deriving DecidableEq, Repr

/-- Skia's colour types (`SkColorType`, SkImageInfo.h). -/
inductive SkColorType
  | kUnknown_SkColorType
  | kAlpha_8_SkColorType
  | kRGB_565_SkColorType
  | kARGB_4444_SkColorType
  | kRGBA_8888_SkColorType
  | kBGRA_8888_SkColorType
  | kIndex_8_SkColorType
  | kGray_8_SkColorType
  | kRGBA_F16_SkColorType
  deriving DecidableEq, Repr

open CopyResult SkColorType

/-- On Android `kN32_SkColorType` is `kRGBA_8888_SkColorType`. -/
def kN32_SkColorType : SkColorType := kRGBA_8888_SkColorType

/-- Bytes per pixel of a colour type (`SkColorTypeBytesPerPixel`). -/
def SkColorType.bytesPerPixel : SkColorType → Int
  | kUnknown_SkColorType => 0
  | kAlpha_8_SkColorType => 1
  | kRGB_565_SkColorType => 2
  | kARGB_4444_SkColorType => 2
  | kRGBA_8888_SkColorType => 4
  | kBGRA_8888_SkColorType => 4
  | kIndex_8_SkColorType => 1
  | kGray_8_SkColorType => 1
  | kRGBA_F16_SkColorType => 8

/-- Bytes of a mapped region, by signed byte offset from its base address. -/
abbrev Memory := Int → Nat

/-- GL enumerants, by their numeric value. -/
abbrev GLenum := Nat

def GL_NO_ERROR : GLenum := 0
def GL_ALPHA : GLenum := 0x1906
def GL_RGB : GLenum := 0x1907
def GL_RGBA : GLenum := 0x1908
def GL_RGBA16F : GLenum := 0x881A
def GL_UNSIGNED_BYTE : GLenum := 0x1401
def GL_HALF_FLOAT : GLenum := 0x140B
def GL_UNSIGNED_SHORT_4_4_4_4 : GLenum := 0x8033
def GL_UNSIGNED_SHORT_5_6_5 : GLenum := 0x8363

/-- The status `NO_ERROR` of utils/Errors.h. -/
def NO_ERROR : Int := 0

/-- The usage bit `GRALLOC_USAGE_PROTECTED` of hardware/gralloc.h. -/
def GRALLOC_USAGE_PROTECTED : Nat := 0x00004000

/-- A rectangle (`Rect`); the coordinates are taken to be integers, as the source does. -/
structure Rect where
  left : Int
  top : Int
  right : Int
  bottom : Int
  deriving DecidableEq, Repr

/-- The empty rectangle made by `Rect()`. -/
def Rect.empty : Rect := ⟨0, 0, 0, 0⟩

/-- `Rect::isEmpty`: no area. -/
def Rect.isEmpty (r : Rect) : Bool := decide (r.left ≥ r.right) || decide (r.top ≥ r.bottom)

/-- `Rect::getWidth`. -/
def Rect.getWidth (r : Rect) : Int := r.right - r.left

/-- `Rect::getHeight`. -/
def Rect.getHeight (r : Rect) : Int := r.bottom - r.top

/-- A 4x4 matrix (`Matrix4`), its sixteen entries in the order of `Matrix4::data`. -/
structure Matrix4 where
  data : List ℚ
  deriving DecidableEq

/-- Index of the skew term `Matrix4::kSkewX`. -/
def Matrix4.kSkewX : Nat := 4

/-- Entry `m[i]` of a matrix. -/
def Matrix4.get (m : Matrix4) (i : Nat) : ℚ := m.data.getD i 0

/-- The reference matrix `defaultTransform` of `copyFromPrivateHandle`. -/
def defaultTransform : Matrix4 :=
  ⟨[1, 0, 0, 0,
    0, -1, 0, 0,
    0, 0, 1, 0,
    0, 1, 0, 1]⟩

/-- The gralloc handle behind a buffer, read as a `private_handle_t`. -/
structure private_handle_t where
  /-- whether `private_handle_t::validate(native_handle) == 0` -/
  validate : Bool
  width : Int
  height : Int
  size : Int
  /-- the bytes mapped at `hnd->base` -/
  base : Memory

/-- The source buffer (`GraphicBuffer`). -/
structure GraphicBuffer where
  getWidth : Nat
  getHeight : Nat
  getUsage : Nat
  handle : private_handle_t

/-- The ready fence: `wait ms` is the status `Fence::wait(ms)` returns. -/
structure Fence where
  wait : Nat → Int

/-- What `Surface::getLastQueuedBuffer` hands back: its status and its three out-parameters. -/
structure Surface where
  err : Int
  sourceBuffer : Option GraphicBuffer
  sourceFence : Fence
  texTransform : Matrix4

/-- The destination bitmap (`SkBitmap`); its pixel bytes live in `World.pixels`. -/
structure SkBitmap where
  width : Int
  height : Int
  colorType : SkColorType
  /-- distance in bytes between two rows, `SkBitmap::rowBytes` -/
  rowBytes : Int
  /-- whether `getPixels()` is non-null -/
  hasPixels : Bool

/-- `SkBitmap::bytesPerPixel`. -/
def SkBitmap.bytesPerPixel (b : SkBitmap) : Int := b.colorType.bytesPerPixel

/-- `SkBitmap::getAddr(0, y)`: the byte offset of row `y` from the pixel pointer, or none
when the pixel pointer is null. -/
def SkBitmap.getAddr (b : SkBitmap) (y : Int) : Option Int :=
  if b.hasPixels then some (y * b.rowBytes) else none

/-- A texture wrapper (`Texture`): GL name and the dimensions given to `wrap`. -/
structure Texture where
  id : Nat
  width : Nat
  height : Nat

/-- The calls made on the collaborators, in the order they are made. -/
inductive Event
  | getLastQueuedBuffer
  | fenceWait (ms : Nat)
  /-- `memcpy(dst, src, n)`: destination offset, source offset, byte count -/
  | memcpy (dst : Int) (src : Int) (n : Nat)
  | notifyPixelsChanged
  | eglManagerInit
  | eglCreateImageKHR
  | eglDestroyImageKHR
  | glFinish
  | glGenTextures (name : Nat)
  | bindExternalTexture (name : Nat)
  | glEGLImageTargetTexture2DOES
  | createFramebuffer (fbo : Nat)
  | bindFramebuffer (fbo : Nat)
  | activateTexture (unit : Nat)
  | bindTexture (name : Nat)
  | glPixelStorei (packAlignment : Int)
  | glTexParameteri
  | glTexImage2D (internalFormat : GLenum) (width height : Int) (format type : GLenum)
  | glFramebufferTexture2D (name : Nat)
  | setViewport (width height : Int)
  | scissorDisable
  | blendSync
  | stencilDisable
  /-- the draw of the source texture; `cropped` tells whether the crop was composed in -/
  | render (source : Nat) (cropped : Bool) (requiresFilter : Bool)
  | glReadPixels (width height : Int) (format type : GLenum)
  | deleteTexture (name : Nat)
  | deleteFramebuffer (fbo : Nat)
  deriving DecidableEq, Repr

/-- The mutable world of one call. -/
structure World where
  /-- the collaborator calls made so far, oldest first -/
  log : List Event
  /-- the bytes at `bitmap->getPixels()` -/
  pixels : Memory
  /-- the last texture name `glGenTextures` gave out -/
  lastTexture : Nat

/-- Record a collaborator call. -/
def World.emit (w : World) (e : Event) : World := { w with log := w.log ++ [e] }

/-- The effect of `memcpy(dst + d, src + s, n)` on the destination memory. -/
def memcpyInto (dst : Memory) (d : Int) (src : Memory) (s : Int) (n : Nat) : Memory :=
  fun a => if d ≤ a ∧ a < d + n then src (s + (a - d)) else dst a

/-- The call `memcpy(pixels + d, src + s, n)`. -/
def World.memcpy (w : World) (d : Int) (src : Memory) (s : Int) (n : Nat) : World :=
  { w with log := w.log ++ [Event.memcpy d s n], pixels := memcpyInto w.pixels d src s n }

/-- The call `glGenTextures(1, &name)`: a fresh texture name. -/
def World.glGenTextures (w : World) : Nat × World :=
  (w.lastTexture + 1,
    { w with log := w.log ++ [Event.glGenTextures (w.lastTexture + 1)],
             lastTexture := w.lastTexture + 1 })

/-- `Caches`: the device limits the code asks for. -/
structure Caches where
  maxTextureSize : Int
  hasRenderableFloatTextures : Bool

/-- `RenderState`: `createFramebuffer` is the name it returns, 0 when it has none. -/
structure RenderState where
  createFramebuffer : Nat

/-- The answers of the platform during one call. -/
structure Env where
  /-- the cached system property `hwui.private_hal_readback` -/
  workaround_enabled : Bool
  /-- whether `eglCreateImageKHR` returns an image (not `EGL_NO_IMAGE_KHR`) -/
  eglCreateImageKHR : Bool
  /-- what `glGetError` returns after `glEGLImageTargetTexture2DOES` -/
  glGetError : GLenum
  /-- the memory `glReadPixels(0, 0, w, h, format, type, pixels)` leaves at the pixel
  pointer, given the draw (source texture, crop, transform) that preceded it -/
  glReadPixels : Texture → Rect → Matrix4 → Int → Int → GLenum → GLenum → Memory → Memory
  caches : Caches
  renderState : RenderState

/-! ## copyFromPrivateHandle -/

/-- The row loop of `copyFromPrivateHandle` (lines 173-183): `n` rows remain, `y` is the
loop variable. Returns the code of an early return, if one is taken. -/
def copyRows (bitmap : SkBitmap) (bufferData : Memory) (bufferTop : Int)
    (bufferRowBytes bitmapRowBytes : Int) (left bytesPerPixel : Int) :
    Nat → Int → World → Option CopyResult × World
  | 0, _, w => (none, w)
  | n + 1, y, w =>
    match bitmap.getAddr y with
    | none => (some DestinationInvalid, w)
    | some bitmapRowAddr =>
      let bufferRowAddr := bufferTop + y * bufferRowBytes + left * bytesPerPixel
      copyRows bitmap bufferData bufferTop bufferRowBytes bitmapRowBytes left bytesPerPixel
        n (y + 1) (w.memcpy bitmapRowAddr bufferData bufferRowAddr bitmapRowBytes.toNat)

/-- Conversion of an integer to `int` (32 bit, two's complement). -/
def toInt32 (x : Int) : Int := (x + 2147483648) % 4294967296 - 2147483648

/-- Conversion of an integer to `uint32_t`. -/
def toUInt32 (x : Int) : Nat := (x % 4294967296).toNat

/-- Conversion of a `float` that holds an integer to `int` (`static_cast<int>`): the value
itself when it is in the range of `int`; outside it, where C++ leaves the conversion
undefined, the nearest `int`, which is what the ARM conversion instruction gives. -/
def floatToInt (x : Int) : Int := max (-2147483648) (min x 2147483647)

/-- The crop offset `left` of lines 158-163: the crop's, or 0 for an empty crop. -/
def cropLeft (srcRect : Rect) : Int :=
  if !srcRect.isEmpty then floatToInt srcRect.left else 0

/-- The crop offset `top` of lines 158-163: the crop's, or 0 for an empty crop. -/
def cropTop (srcRect : Rect) : Int :=
  if !srcRect.isEmpty then floatToInt srcRect.top else 0

/-- The fast path `copyFromPrivateHandle` (lines 74-189). -/
def copyFromPrivateHandle (env : Env) (graphicBuffer : GraphicBuffer) (texTransform : Matrix4)
    (srcRect : Rect) (bitmap : SkBitmap) (w : World) : CopyResult × World :=
  if !env.workaround_enabled then (UnknownError, w) else
  let bitmapWidth := bitmap.width
  let bitmapHeight := bitmap.height
  if (graphicBuffer.getWidth : Int) != bitmapWidth
      || (graphicBuffer.getHeight : Int) != bitmapHeight
      || (!srcRect.isEmpty &&
          (srcRect.getWidth != bitmapWidth || srcRect.getHeight != bitmapHeight))
      || texTransform != defaultTransform then (UnknownError, w) else
  if bitmap.colorType != kRGBA_8888_SkColorType then (SourceInvalid, w) else
  let bytesPerPixel := bitmap.bytesPerPixel
  let hnd := graphicBuffer.handle
  if !hnd.validate then (SourceInvalid, w) else
  let bufferWidth := hnd.width
  let bufferHeight := hnd.height
  if decide (bitmapWidth > bufferWidth) || decide (bitmapHeight > bufferHeight) then
    (SourceInvalid, w) else
  let bufferRowBytes := bufferWidth * bytesPerPixel
  let minBufferSize := bufferRowBytes * bitmapHeight
  if decide (hnd.size < 0) || decide (hnd.size < minBufferSize) then (SourceInvalid, w) else
  let bufferData := hnd.base
  if srcRect.isEmpty && bitmapWidth == bufferWidth then
    if !bitmap.hasPixels then (DestinationInvalid, w) else
    (Success, (w.memcpy 0 bufferData 0 hnd.size.toNat).emit Event.notifyPixelsChanged)
  else
    let left := cropLeft srcRect
    let top := cropTop srcRect
    if decide (toInt32 (left + bitmapWidth) > bufferWidth)
        || decide (toInt32 (top + bitmapHeight) > bufferHeight)
    then (DestinationInvalid, w) else
    let bitmapRowBytes := bitmapWidth * bytesPerPixel
    let bufferTop := bufferRowBytes * top
    match copyRows bitmap bufferData bufferTop bufferRowBytes bitmapRowBytes left bytesPerPixel
        bitmapHeight.toNat 0 w with
    | (some r, w1) => (r, w1)
    | (none, w1) => (Success, w1.emit Event.notifyPixelsChanged)

/-! ## The GPU path -/

/-- The `switch` of `copyTextureInto` (lines 277-304): `(format, internalFormat, type)`. -/
def glFormat : SkColorType → GLenum × GLenum × GLenum
  | kAlpha_8_SkColorType => (GL_ALPHA, GL_ALPHA, GL_UNSIGNED_BYTE)
  | kRGB_565_SkColorType => (GL_RGB, GL_RGB, GL_UNSIGNED_SHORT_5_6_5)
  | kARGB_4444_SkColorType => (GL_RGBA, GL_RGBA, GL_UNSIGNED_SHORT_4_4_4_4)
  | kRGBA_F16_SkColorType => (GL_RGBA, GL_RGBA16F, GL_HALF_FLOAT)
  | _ => (GL_RGBA, GL_RGBA, GL_UNSIGNED_BYTE)

/-- The flag `requiresFilter` of `copyTextureInto` (lines 342-346). -/
def requiresFilter (sourceTexture : Texture) (srcRect : Rect) (destWidth destHeight : Int) :
    Bool :=
  if !srcRect.isEmpty then
    srcRect.getWidth != destWidth || srcRect.getHeight != destHeight
  else
    sourceTexture.width != toUInt32 destWidth || sourceTexture.height != toUInt32 destHeight

/-- The render-and-read path `copyTextureInto` (lines 248-372). -/
def copyTextureInto (env : Env) (caches : Caches) (renderState : RenderState)
    (sourceTexture : Texture) (texTransform : Matrix4) (srcRect : Rect) (bitmap : SkBitmap)
    (w : World) : CopyResult × World :=
  let destWidth := bitmap.width
  let destHeight := bitmap.height
  if decide (destWidth > caches.maxTextureSize) || decide (destHeight > caches.maxTextureSize)
  then (DestinationInvalid, w) else
  if bitmap.colorType == kRGBA_F16_SkColorType && !caches.hasRenderableFloatTextures then
    (DestinationInvalid, w) else
  let fbo := renderState.createFramebuffer
  let w := w.emit (Event.createFramebuffer fbo)
  if fbo == 0 then (UnknownError, w) else
  let (format, internalFormat, type) := glFormat bitmap.colorType
  let w := w.emit (Event.bindFramebuffer fbo)
  let (texture, w) := w.glGenTextures
  let w := w.emit (Event.activateTexture 0)
  let w := w.emit (Event.bindTexture texture)
  let w := w.emit (Event.glPixelStorei bitmap.bytesPerPixel)
  let w := (((w.emit Event.glTexParameteri).emit Event.glTexParameteri).emit
    Event.glTexParameteri).emit Event.glTexParameteri
  let w := w.emit (Event.glTexImage2D internalFormat destWidth destHeight format type)
  let w := w.emit (Event.glFramebufferTexture2D texture)
  let w := w.emit (Event.setViewport destWidth destHeight)
  let w := w.emit Event.scissorDisable
  let w := w.emit Event.blendSync
  let w := w.emit Event.stencilDisable
  let w := w.emit (Event.render sourceTexture.id (!srcRect.isEmpty)
    (requiresFilter sourceTexture srcRect destWidth destHeight))
  let w := { w.emit (Event.glReadPixels bitmap.width bitmap.height format type) with
    pixels := env.glReadPixels sourceTexture srcRect texTransform bitmap.width bitmap.height
      format type w.pixels }
  let w := w.emit Event.notifyPixelsChanged
  let w := w.emit (Event.deleteTexture texture)
  let w := w.emit (Event.deleteFramebuffer fbo)
  (Success, w)

/-- The rotation test of `copyImageInto` (line 379): the skew term is at least a half in
absolute value. -/
def isRotated (imgTransform : Matrix4) : Bool :=
  decide (imgTransform.get Matrix4.kSkewX ≥ 1 / 2)
    || decide (imgTransform.get Matrix4.kSkewX ≤ -(1 / 2))

/-- The texture import `OpenGLReadbackImpl::copyImageInto` (lines 374-404). -/
def copyImageInto (env : Env) (imgTransform : Matrix4) (imgWidth imgHeight : Int)
    (srcRect : Rect) (bitmap : SkBitmap) (w : World) : CopyResult × World :=
  let swap := isRotated imgTransform
  let (imgWidth, imgHeight) :=
    (if swap then imgHeight else imgWidth, if swap then imgWidth else imgHeight)
  let (sourceTexId, w) := w.glGenTextures
  let w := w.emit (Event.bindExternalTexture sourceTexId)
  let w := w.emit Event.glEGLImageTargetTexture2DOES
  if env.glGetError != GL_NO_ERROR then (UnknownError, w) else
  let sourceTexture : Texture := ⟨sourceTexId, toUInt32 imgWidth, toUInt32 imgHeight⟩
  let (copyResult, w) := copyTextureInto env env.caches env.renderState sourceTexture
    imgTransform srcRect bitmap w
  let w := w.emit (Event.deleteTexture sourceTexId)
  (copyResult, w)

/-- The steps of `copyGraphicBufferInto` after the fast path (lines 200-228). -/
def gpuPath (env : Env) (graphicBuffer : GraphicBuffer) (texTransform : Matrix4)
    (srcRect : Rect) (bitmap : SkBitmap) (w : World) : CopyResult × World :=
  let w := w.emit Event.eglManagerInit
  let w := w.emit Event.eglCreateImageKHR
  if !env.eglCreateImageKHR then (UnknownError, w) else
  let width := graphicBuffer.getWidth
  let height := graphicBuffer.getHeight
  let (copyResult, w) := copyImageInto env texTransform (toInt32 width) (toInt32 height)
    srcRect bitmap w
  let w := w.emit Event.glFinish
  let w := w.emit Event.eglDestroyImageKHR
  (copyResult, w)

/-- The engine entry `OpenGLReadback::copyGraphicBufferInto` (lines 193-229). -/
def copyGraphicBufferInto (env : Env) (graphicBuffer : GraphicBuffer) (texTransform : Matrix4)
    (srcRect : Rect) (bitmap : SkBitmap) (w : World) : CopyResult × World :=
  let (r, w) := copyFromPrivateHandle env graphicBuffer texTransform srcRect bitmap w
  if r == Success then (Success, w) else
  gpuPath env graphicBuffer texTransform srcRect bitmap w

/-! ## copySurfaceInto -/

/-- The orchestrator `OpenGLReadback::copySurfaceInto` (lines 42-70). -/
def copySurfaceInto (env : Env) (surface : Surface) (srcRect : Rect) (bitmap : SkBitmap)
    (w : World) : CopyResult × World :=
  let w := w.emit Event.getLastQueuedBuffer
  if surface.err != NO_ERROR then (UnknownError, w) else
  match surface.sourceBuffer with
  | none => (SourceEmpty, w)
  | some sourceBuffer =>
    if sourceBuffer.getUsage &&& GRALLOC_USAGE_PROTECTED != 0 then (SourceInvalid, w) else
    let err := surface.sourceFence.wait 500
    let w := w.emit (Event.fenceWait 500)
    if err != NO_ERROR then (Timeout, w) else
    copyGraphicBufferInto env sourceBuffer surface.texTransform srcRect bitmap w

/-! ## Vocabulary of the statements -/

/-- The later world has the earlier world's log, possibly followed by further calls. -/
def Extends (w w1 : World) : Prop := ∃ l, w1.log = w.log ++ l

/-- The producer hands over the buffer `b`: `getLastQueuedBuffer` reports `NO_ERROR` and has
set `sourceBuffer` to `b`. -/
def Surface.handsOver (surface : Surface) (b : GraphicBuffer) : Prop :=
  surface.err = NO_ERROR ∧ surface.sourceBuffer = some b

/-- The producer has no previously queued buffer: `getLastQueuedBuffer` reports `NO_ERROR`
and has left `sourceBuffer` null (lines 55-58). -/
def Surface.hasNoQueuedBuffer (surface : Surface) : Prop :=
  surface.err = NO_ERROR ∧ surface.sourceBuffer = none

/-- The checks of lines 84-143 of `copyFromPrivateHandle` all pass. -/
structure PassesChecks (env : Env) (gb : GraphicBuffer) (t : Matrix4) (r : Rect)
    (bm : SkBitmap) : Prop where
  toggle : env.workaround_enabled = true
  sameWidth : (gb.getWidth : Int) = bm.width
  sameHeight : (gb.getHeight : Int) = bm.height
  crop : r.isEmpty = true ∨ (r.getWidth = bm.width ∧ r.getHeight = bm.height)
  transform : t = defaultTransform
  colorType : bm.colorType = kRGBA_8888_SkColorType
  validate : gb.handle.validate = true
  fitsWidth : bm.width ≤ gb.handle.width
  fitsHeight : bm.height ≤ gb.handle.height
  sizeNonneg : 0 ≤ gb.handle.size
  sizeMin : gb.handle.width * 4 * bm.height ≤ gb.handle.size

/-- The calls `copyTextureInto` makes from `createFramebuffer` on when it has obtained its
framebuffer `fbo` and texture name `texture` (lines 265-367). -/
def drawCalls (tex : Texture) (r : Rect) (bm : SkBitmap) (fbo texture : Nat) : List Event :=
  [Event.createFramebuffer fbo, Event.bindFramebuffer fbo, Event.glGenTextures texture,
   Event.activateTexture 0, Event.bindTexture texture, Event.glPixelStorei bm.bytesPerPixel,
   Event.glTexParameteri, Event.glTexParameteri, Event.glTexParameteri, Event.glTexParameteri,
   Event.glTexImage2D (glFormat bm.colorType).2.1 bm.width bm.height
     (glFormat bm.colorType).1 (glFormat bm.colorType).2.2,
   Event.glFramebufferTexture2D texture, Event.setViewport bm.width bm.height,
   Event.scissorDisable, Event.blendSync, Event.stencilDisable,
   Event.render tex.id (!r.isEmpty) (requiresFilter tex r bm.width bm.height),
   Event.glReadPixels bm.width bm.height (glFormat bm.colorType).1 (glFormat bm.colorType).2.2,
   Event.notifyPixelsChanged, Event.deleteTexture texture, Event.deleteFramebuffer fbo]

/-- The source texture `copyImageInto` wraps: the fresh name and the possibly swapped
dimensions (lines 379-398). -/
def importedTexture (t : Matrix4) (iw ih : Int) (w : World) : Texture :=
  ⟨w.lastTexture + 1, toUInt32 (if isRotated t then ih else iw),
    toUInt32 (if isRotated t then iw else ih)⟩

/-- The world in which `copyImageInto` calls `copyTextureInto` (lines 383-388). -/
def importedWorld (w : World) : World :=
  (w.glGenTextures.2.emit (Event.bindExternalTexture (w.lastTexture + 1))).emit
    Event.glEGLImageTargetTexture2DOES

/-- The `memcpy` calls of the row loop (lines 173-183) for `n` rows from row `y` on, when
the bitmap has a pixel pointer: row `k` is copied from source offset
`bufferTop + k * bufferRowBytes + left * bytesPerPixel`. -/
def rowCopies (bitmap : SkBitmap) (bufferTop bufferRowBytes bitmapRowBytes : Int)
    (left bytesPerPixel : Int) : Nat → Int → List Event
  | 0, _ => []
  | n + 1, y =>
    Event.memcpy (y * bitmap.rowBytes) (bufferTop + y * bufferRowBytes + left * bytesPerPixel)
        bitmapRowBytes.toNat
      :: rowCopies bitmap bufferTop bufferRowBytes bitmapRowBytes left bytesPerPixel n (y + 1)

/-- Whether a call creates a GPU texture or framebuffer (`createFramebuffer` returning 0
created none). -/
def Event.creates : Event → Bool
  | Event.glGenTextures _ => true
  | Event.createFramebuffer fbo => fbo != 0
  | _ => false

/-- Whether a call deletes a GPU texture or framebuffer. -/
def Event.deletes : Event → Bool
  | Event.deleteTexture _ => true
  | Event.deleteFramebuffer _ => true
  | _ => false

/-- Number of textures and framebuffers created in a log. -/
def creations (log : List Event) : Nat := log.countP Event.creates

/-- Number of textures and framebuffers deleted in a log. -/
def deletions (log : List Event) : Nat := log.countP Event.deletes

/-! ## Concrete inputs -/

/-- A world with an empty log and zeroed destination memory. -/
def world0 : World := ⟨[], fun _ => 0, 0⟩

/-- Source bytes that are all non-zero and differ between neighbours. -/
def sourceBytes : Memory := fun a => a.toNat % 251 + 1

/-- A device with the fast path switched on and a GPU that answers every call. -/
def envOn : Env :=
  { workaround_enabled := true
    eglCreateImageKHR := true
    glGetError := GL_NO_ERROR
    glReadPixels := fun _ _ _ _ _ _ _ m => m
    caches := ⟨4096, false⟩
    renderState := ⟨7⟩ }

/-- The same device with the fast path switched off (the default). -/
def envOff : Env := { envOn with workaround_enabled := false }

/-- The same device when the texture import raises `GL_INVALID_OPERATION`. -/
def envImportError : Env := { envOn with glGetError := 0x0502 }

/-- A valid 4x4 handle of 64 bytes. -/
def handle4 : private_handle_t := ⟨true, 4, 4, 64, sourceBytes⟩

/-- A 4x4 buffer over `handle4`. -/
def buffer4 : GraphicBuffer := ⟨4, 4, 0, handle4⟩

/-- A 4x4 buffer flagged `GRALLOC_USAGE_PROTECTED`. -/
def protectedBuffer : GraphicBuffer := ⟨4, 4, GRALLOC_USAGE_PROTECTED, handle4⟩

/-- An 8x8 buffer over a valid 8x8 handle of 256 bytes. -/
def buffer8 : GraphicBuffer := ⟨8, 8, 0, ⟨true, 8, 8, 256, sourceBytes⟩⟩

/-- A 1x2 buffer over a valid 1x2 handle of 8 bytes. -/
def buffer1x2 : GraphicBuffer := ⟨1, 2, 0, ⟨true, 1, 2, 8, sourceBytes⟩⟩

/-- A 4x4 buffer whose handle is padded to 8 pixels per row (8x4, 128 bytes). -/
def bufferPadded : GraphicBuffer := ⟨4, 4, 0, ⟨true, 8, 4, 128, sourceBytes⟩⟩

/-- A 1920x1080 buffer whose handle has its height aligned to 1088 rows:
`1920 * 1088 * 4 = 8355840` bytes. -/
def bufferHD : GraphicBuffer := ⟨1920, 1080, 0, ⟨true, 1920, 1088, 8355840, sourceBytes⟩⟩

/-- A 1920x1080 RGBA_8888 bitmap with tightly packed rows: `1920 * 1080 * 4 = 8294400`
bytes. -/
def bitmapHD : SkBitmap := ⟨1920, 1080, kRGBA_8888_SkColorType, 7680, true⟩

/-- A 128x1 buffer over a valid 128x1 handle of 512 bytes. -/
def buffer128 : GraphicBuffer := ⟨128, 1, 0, ⟨true, 128, 1, 512, sourceBytes⟩⟩

/-- A 128x1 RGBA_8888 bitmap. -/
def bitmap128 : SkBitmap := ⟨128, 1, kRGBA_8888_SkColorType, 512, true⟩

/-- A 4x4 RGBA_8888 bitmap with tightly packed rows. -/
def bitmap4 : SkBitmap := ⟨4, 4, kRGBA_8888_SkColorType, 16, true⟩

/-- A 1x2 RGBA_8888 bitmap whose rows are 8 bytes apart. -/
def bitmap1x2 : SkBitmap := ⟨1, 2, kRGBA_8888_SkColorType, 8, true⟩

/-- A fence that never signals: every wait ends with `-ETIME`. -/
def stuckFence : Fence := ⟨fun _ => -62⟩

/-- A fence that has signalled. -/
def readyFence : Fence := ⟨fun _ => NO_ERROR⟩

/-- A producer whose last queued buffer is protected. -/
def protectedSurface : Surface := ⟨NO_ERROR, some protectedBuffer, readyFence, defaultTransform⟩

/-- A producer whose fence never signals. -/
def stuckSurface : Surface := ⟨NO_ERROR, some buffer4, stuckFence, defaultTransform⟩

/-- A producer that has queued nothing yet. -/
def emptySurface : Surface := ⟨NO_ERROR, none, readyFence, defaultTransform⟩

/-- A producer whose `getLastQueuedBuffer` fails with `DEAD_OBJECT` and sets no buffer. -/
def deadSurface : Surface := ⟨-32, none, readyFence, defaultTransform⟩

/-! ## Basic facts about the world -/

theorem emit_pixels (w : World) (e : Event) : (w.emit e).pixels = w.pixels := rfl

theorem emit_log (w : World) (e : Event) : (w.emit e).log = w.log ++ [e] := rfl

theorem memcpy_pixels (w : World) (d : Int) (src : Memory) (s : Int) (n : Nat) :
    (w.memcpy d src s n).pixels = memcpyInto w.pixels d src s n := rfl

theorem Extends.refl (w : World) : Extends w w := ⟨[], by simp⟩

theorem Extends.trans {a b c : World} (h1 : Extends a b) (h2 : Extends b c) : Extends a c := by
  obtain ⟨l1, e1⟩ := h1
  obtain ⟨l2, e2⟩ := h2
  exact ⟨l1 ++ l2, by rw [e2, e1, List.append_assoc]⟩

theorem Extends.emit {a b : World} (h : Extends a b) (e : Event) : Extends a (b.emit e) :=
  h.trans ⟨[e], rfl⟩

theorem Extends.memcpy {a b : World} (h : Extends a b) (d : Int) (src : Memory) (s : Int)
    (n : Nat) : Extends a (b.memcpy d src s n) :=
  h.trans ⟨[Event.memcpy d s n], rfl⟩

theorem Extends.glGenTextures {a b : World} (h : Extends a b) : Extends a b.glGenTextures.2 :=
  h.trans ⟨[Event.glGenTextures (b.lastTexture + 1)], rfl⟩

theorem Extends.append (w : World) (l : List Event) (p : Memory) (n : Nat) :
    Extends w ⟨w.log ++ l, p, n⟩ := ⟨l, rfl⟩

theorem Extends.length_le {a b : World} (h : Extends a b) : a.log.length ≤ b.log.length := by
  obtain ⟨l, e⟩ := h
  rw [e, List.length_append]
  omega

theorem Extends.mem {a b : World} (h : Extends a b) {e : Event} (he : e ∈ a.log) :
    e ∈ b.log := by
  obtain ⟨l, e1⟩ := h
  rw [e1]
  exact List.mem_append_left _ he

/-! ## The row loop -/

/-- With a pixel pointer the row loop never returns early. -/
theorem copyRows_ok (bm : SkBitmap) (d : Memory) (bt rb brb l bpp : Int)
    (hp : bm.hasPixels = true) (n : Nat) (y : Int) (w : World) :
    (copyRows bm d bt rb brb l bpp n y w).1 = none := by
  induction n generalizing y w with
  | zero => simp [copyRows]
  | succ n ih =>
    rw [copyRows]
    simp only [SkBitmap.getAddr, hp, if_true]
    exact ih _ _

/-- Without a pixel pointer the row loop returns at its first row, or does not run. -/
theorem copyRows_null (bm : SkBitmap) (d : Memory) (bt rb brb l bpp : Int)
    (hp : bm.hasPixels = false) (n : Nat) (y : Int) (w : World) :
    copyRows bm d bt rb brb l bpp n y w
      = (if n = 0 then none else some DestinationInvalid, w) := by
  cases n with
  | zero => simp [copyRows]
  | succ n => simp [copyRows, SkBitmap.getAddr, hp]

/-- An early return of the row loop is `DestinationInvalid` and has written nothing. -/
theorem copyRows_fail (bm : SkBitmap) (d : Memory) (bt rb brb l bpp : Int) (n : Nat) (y : Int)
    (w : World) (c : CopyResult) (w1 : World)
    (h : copyRows bm d bt rb brb l bpp n y w = (some c, w1)) :
    c = DestinationInvalid ∧ w1 = w := by
  cases hp : bm.hasPixels
  · rw [copyRows_null bm d bt rb brb l bpp hp] at h
    by_cases hn : n = 0
    · simp [hn] at h
    · simp [hn] at h
      exact ⟨h.1.symm, h.2.symm⟩
  · have := copyRows_ok bm d bt rb brb l bpp hp n y w
    rw [h] at this
    simp at this

theorem copyRows_extends (bm : SkBitmap) (d : Memory) (bt rb brb l bpp : Int) (n : Nat)
    (y : Int) (w : World) : Extends w (copyRows bm d bt rb brb l bpp n y w).2 := by
  induction n generalizing y w with
  | zero => exact Extends.refl w
  | succ n ih =>
    rw [copyRows]
    cases hp : bm.hasPixels
    · simp only [SkBitmap.getAddr, hp]
      exact Extends.refl w
    · simp only [SkBitmap.getAddr, hp, if_true]
      exact ((Extends.refl w).memcpy _ _ _ _).trans (ih _ _)

/-- The row loop leaves the bytes below its first row alone. -/
theorem copyRows_frame (bm : SkBitmap) (d : Memory) (bt rb brb l bpp : Int)
    (hR : 0 ≤ bm.rowBytes) (n : Nat) (y : Int) (w : World) (a : Int)
    (ha : a < y * bm.rowBytes) :
    (copyRows bm d bt rb brb l bpp n y w).2.pixels a = w.pixels a := by
  induction n generalizing y w with
  | zero => simp [copyRows]
  | succ n ih =>
    rw [copyRows]
    cases hp : bm.hasPixels
    · simp [SkBitmap.getAddr, hp]
    · simp only [SkBitmap.getAddr, hp, if_true]
      have hstep : (y + 1) * bm.rowBytes = y * bm.rowBytes + bm.rowBytes := by ring
      rw [ih (y + 1) _ (by omega)]
      rw [memcpy_pixels]
      unfold memcpyInto
      rw [if_neg (by omega)]

/-- The bytes the row loop leaves in the rows it copies. -/
theorem copyRows_pixels (bm : SkBitmap) (d : Memory) (bt rb brb l bpp : Int)
    (hp : bm.hasPixels = true) (h0 : 0 ≤ brb) (hR : brb ≤ bm.rowBytes)
    (n : Nat) (y : Int) (w : World) (y1 i : Int)
    (hy : y ≤ y1) (hy1 : y1 < y + n) (hi : 0 ≤ i) (hi1 : i < brb) :
    (copyRows bm d bt rb brb l bpp n y w).2.pixels (y1 * bm.rowBytes + i)
      = d (bt + y1 * rb + l * bpp + i) := by
  induction n generalizing y w with
  | zero => omega
  | succ n ih =>
    rw [copyRows]
    simp only [SkBitmap.getAddr, hp, if_true]
    by_cases hcur : y1 = y
    · subst hcur
      have hstep : (y1 + 1) * bm.rowBytes = y1 * bm.rowBytes + bm.rowBytes := by ring
      rw [copyRows_frame bm d bt rb brb l bpp (by omega) n (y1 + 1) _ _ (by omega)]
      rw [memcpy_pixels]
      unfold memcpyInto
      rw [if_pos (by omega)]
      congr 1
      omega
    · exact ih (y + 1) _ (by omega) (by push_cast at hy1; omega)

/-! ## copyFromPrivateHandle -/

/-- An integer in the range of `int` converts to itself. -/
theorem toInt32_of_range (x : Int) (h0 : -2147483648 ≤ x) (h1 : x < 2147483648) :
    toInt32 x = x := by
  unfold toInt32
  omega

/-- Wrapping to `int` never increases an integer that is not below the range of `int`. -/
theorem toInt32_le_self (x : Int) (h0 : -2147483648 ≤ x) : toInt32 x ≤ x := by
  unfold toInt32
  omega

theorem floatToInt_range (x : Int) :
    -2147483648 ≤ floatToInt x ∧ floatToInt x < 2147483648 := by
  unfold floatToInt
  omega

theorem floatToInt_of_range (x : Int) (h0 : -2147483648 ≤ x) (h1 : x < 2147483648) :
    floatToInt x = x := by
  unfold floatToInt
  omega

/-- The crop offsets are `int`s. -/
theorem cropLeft_range (r : Rect) : -2147483648 ≤ cropLeft r ∧ cropLeft r < 2147483648 := by
  unfold cropLeft
  split
  · exact floatToInt_range _
  · omega

theorem cropTop_range (r : Rect) : -2147483648 ≤ cropTop r ∧ cropTop r < 2147483648 := by
  unfold cropTop
  split
  · exact floatToInt_range _
  · omega

/-- A crop offset that stays inside the handle's extent passes the range check of line 167:
the `int` sums can only wrap downwards. -/
theorem range_check_passes (r : Rect) (bm : SkBitmap) (bufferWidth bufferHeight : Int)
    (hw : 0 ≤ bm.width) (hh : 0 ≤ bm.height)
    (hleft : cropLeft r + bm.width ≤ bufferWidth)
    (htop : cropTop r + bm.height ≤ bufferHeight) :
    ¬(bufferWidth < toInt32 (cropLeft r + bm.width)
      ∨ bufferHeight < toInt32 (cropTop r + bm.height)) := by
  have h1 := toInt32_le_self (cropLeft r + bm.width) (by have := cropLeft_range r; omega)
  have h2 := toInt32_le_self (cropTop r + bm.height) (by have := cropTop_range r; omega)
  omega

/-- What is left of `copyFromPrivateHandle` once the checks of lines 84-143 have passed. -/
theorem copyFromPrivateHandle_of_checks (env : Env) (gb : GraphicBuffer) (t : Matrix4)
    (r : Rect) (bm : SkBitmap) (w : World) (h : PassesChecks env gb t r bm) :
    copyFromPrivateHandle env gb t r bm w =
      if r.isEmpty = true ∧ bm.width = gb.handle.width then
        if bm.hasPixels = true then
          (Success,
            (w.memcpy 0 gb.handle.base 0 gb.handle.size.toNat).emit Event.notifyPixelsChanged)
        else (DestinationInvalid, w)
      else if gb.handle.width < toInt32 (cropLeft r + bm.width)
          ∨ gb.handle.height < toInt32 (cropTop r + bm.height)
      then (DestinationInvalid, w)
      else
        match copyRows bm gb.handle.base (gb.handle.width * 4 * cropTop r) (gb.handle.width * 4)
            (bm.width * 4) (cropLeft r) 4 bm.height.toNat 0 w with
        | (some r, w1) => (r, w1)
        | (none, w1) => (Success, w1.emit Event.notifyPixelsChanged) := by
  obtain ⟨h1, h2, h3, h4, h5, h6, h7, h8, h9, h10, h11⟩ := h
  have hbpp : bm.bytesPerPixel = 4 := by
    simp [SkBitmap.bytesPerPixel, h6, SkColorType.bytesPerPixel]
  have hgate : ((gb.getWidth : Int) != bm.width || (gb.getHeight : Int) != bm.height
      || (!r.isEmpty && (r.getWidth != bm.width || r.getHeight != bm.height))
      || t != defaultTransform) = false := by
    rcases h4 with hc | ⟨hc1, hc2⟩
    · simp [h2, h3, hc, h5]
    · simp [h2, h3, hc1, hc2, h5]
  have hA : (decide (bm.width > gb.handle.width) || decide (bm.height > gb.handle.height))
      = false := by
    simp; omega
  have hB : (decide (gb.handle.size < 0)
      || decide (gb.handle.size < gb.handle.width * 4 * bm.height)) = false := by
    simp; omega
  unfold copyFromPrivateHandle
  simp only [h1, hgate, h6, h7, hbpp, hA, hB, Bool.not_true, Bool.false_eq_true, if_false,
    bne_self_eq_false, Bool.and_eq_true, beq_iff_eq, Bool.or_eq_true, decide_eq_true_eq,
    gt_iff_lt, Bool.not_eq_true']
  by_cases hq : r.isEmpty = true ∧ bm.width = gb.handle.width
  · rw [if_pos hq, if_pos hq]
    cases bm.hasPixels <;> simp
  · simp only [if_neg hq]

/-- A fast path that does not succeed has changed nothing. -/
theorem copyFromPrivateHandle_fail_world (env : Env) (gb : GraphicBuffer) (t : Matrix4)
    (r : Rect) (bm : SkBitmap) (w : World)
    (h : (copyFromPrivateHandle env gb t r bm w).1 ≠ Success) :
    (copyFromPrivateHandle env gb t r bm w).2 = w := by
  revert h
  unfold copyFromPrivateHandle
  simp only []
  repeat' split
  all_goals (try simp)
  all_goals
    rename_i heq
    intro _
    exact (copyRows_fail _ _ _ _ _ _ _ _ _ _ _ _ heq).2

/-- A fast path that succeeds has notified the bitmap after anything else it did. -/
theorem copyFromPrivateHandle_success_notifies (env : Env) (gb : GraphicBuffer) (t : Matrix4)
    (r : Rect) (bm : SkBitmap) (w : World)
    (h : (copyFromPrivateHandle env gb t r bm w).1 = Success) :
    ∃ w1, Extends w w1 ∧
      (copyFromPrivateHandle env gb t r bm w).2 = w1.emit Event.notifyPixelsChanged := by
  revert h
  unfold copyFromPrivateHandle
  simp only []
  repeat' split
  all_goals (try simp)
  · exact ⟨_, (Extends.refl w).memcpy _ _ _ _, rfl⟩
  · rename_i heq
    intro hc
    have := (copyRows_fail _ _ _ _ _ _ _ _ _ _ _ _ heq).1
    rw [this] at hc
    exact absurd hc (by decide)
  · rename_i heq
    have := copyRows_extends bm gb.handle.base (gb.handle.width * bm.bytesPerPixel * cropTop r)
      (gb.handle.width * bm.bytesPerPixel) (bm.width * bm.bytesPerPixel) (cropLeft r)
      bm.bytesPerPixel bm.height.toNat 0 w
    rw [heq] at this
    exact ⟨_, this, rfl⟩

theorem copyFromPrivateHandle_extends (env : Env) (gb : GraphicBuffer) (t : Matrix4)
    (r : Rect) (bm : SkBitmap) (w : World) :
    Extends w (copyFromPrivateHandle env gb t r bm w).2 := by
  by_cases h : (copyFromPrivateHandle env gb t r bm w).1 = Success
  · obtain ⟨w1, hw1, heq⟩ := copyFromPrivateHandle_success_notifies env gb t r bm w h
    rw [heq]
    exact hw1.emit _
  · rw [copyFromPrivateHandle_fail_world env gb t r bm w h]
    exact Extends.refl w

/-! ## The GPU path -/

/-- The two early returns of `copyTextureInto` (lines 253-263). -/
theorem copyTextureInto_invalid (env : Env) (caches : Caches) (rs : RenderState) (tex : Texture)
    (t : Matrix4) (r : Rect) (bm : SkBitmap) (w : World)
    (h : caches.maxTextureSize < bm.width ∨ caches.maxTextureSize < bm.height
      ∨ (bm.colorType = kRGBA_F16_SkColorType ∧ caches.hasRenderableFloatTextures = false)) :
    copyTextureInto env caches rs tex t r bm w = (DestinationInvalid, w) := by
  unfold copyTextureInto
  simp only []
  split
  · rfl
  · rename_i h1
    split
    · rfl
    · rename_i h2
      exfalso
      rcases h with h | h | ⟨h, h'⟩
      · simp at h1; omega
      · simp at h1; omega
      · simp [h, h'] at h2

/-- The return of `copyTextureInto` when no framebuffer is to be had (lines 265-269). -/
theorem copyTextureInto_no_framebuffer (env : Env) (caches : Caches) (rs : RenderState)
    (tex : Texture) (t : Matrix4) (r : Rect) (bm : SkBitmap) (w : World)
    (h1 : bm.width ≤ caches.maxTextureSize) (h2 : bm.height ≤ caches.maxTextureSize)
    (h3 : bm.colorType = kRGBA_F16_SkColorType → caches.hasRenderableFloatTextures = true)
    (h4 : rs.createFramebuffer = 0) :
    copyTextureInto env caches rs tex t r bm w
      = (UnknownError, w.emit (Event.createFramebuffer 0)) := by
  have hA : (decide (bm.width > caches.maxTextureSize)
      || decide (bm.height > caches.maxTextureSize)) = false := by
    simp; omega
  have hB : (bm.colorType == kRGBA_F16_SkColorType && !caches.hasRenderableFloatTextures)
      = false := by
    by_cases hc : bm.colorType = kRGBA_F16_SkColorType
    · simp [h3 hc]
    · simp [hc]
  unfold copyTextureInto
  simp only [hA, hB, h4]
  simp

/-- The run of `copyTextureInto` once it has its framebuffer (lines 271-371). -/
theorem copyTextureInto_draws (env : Env) (caches : Caches) (rs : RenderState)
    (tex : Texture) (t : Matrix4) (r : Rect) (bm : SkBitmap) (w : World)
    (h1 : bm.width ≤ caches.maxTextureSize) (h2 : bm.height ≤ caches.maxTextureSize)
    (h3 : bm.colorType = kRGBA_F16_SkColorType → caches.hasRenderableFloatTextures = true)
    (h4 : rs.createFramebuffer ≠ 0) :
    copyTextureInto env caches rs tex t r bm w
      = (Success,
          { log := w.log ++ drawCalls tex r bm rs.createFramebuffer (w.lastTexture + 1),
            pixels := env.glReadPixels tex r t bm.width bm.height (glFormat bm.colorType).1
              (glFormat bm.colorType).2.2 w.pixels,
            lastTexture := w.lastTexture + 1 }) := by
  have hA : (decide (bm.width > caches.maxTextureSize)
      || decide (bm.height > caches.maxTextureSize)) = false := by
    simp; omega
  have hB : (bm.colorType == kRGBA_F16_SkColorType && !caches.hasRenderableFloatTextures)
      = false := by
    by_cases hc : bm.colorType = kRGBA_F16_SkColorType
    · simp [h3 hc]
    · simp [hc]
  have hC : (rs.createFramebuffer == 0) = false := by simp [h4]
  unfold copyTextureInto
  simp only [hA, hB, hC]
  simp [World.emit, World.glGenTextures, drawCalls]

/-- The three ways `copyTextureInto` can end. -/
theorem copyTextureInto_cases (env : Env) (caches : Caches) (rs : RenderState)
    (tex : Texture) (t : Matrix4) (r : Rect) (bm : SkBitmap) (w : World) :
    copyTextureInto env caches rs tex t r bm w = (DestinationInvalid, w)
    ∨ copyTextureInto env caches rs tex t r bm w
        = (UnknownError, w.emit (Event.createFramebuffer 0))
    ∨ (rs.createFramebuffer ≠ 0 ∧ copyTextureInto env caches rs tex t r bm w
        = (Success,
          { log := w.log ++ drawCalls tex r bm rs.createFramebuffer (w.lastTexture + 1),
            pixels := env.glReadPixels tex r t bm.width bm.height (glFormat bm.colorType).1
              (glFormat bm.colorType).2.2 w.pixels,
            lastTexture := w.lastTexture + 1 })) := by
  by_cases h1 : bm.width ≤ caches.maxTextureSize
  · by_cases h2 : bm.height ≤ caches.maxTextureSize
    · by_cases h3 : bm.colorType = kRGBA_F16_SkColorType
          → caches.hasRenderableFloatTextures = true
      · by_cases h4 : rs.createFramebuffer = 0
        · exact Or.inr (Or.inl (copyTextureInto_no_framebuffer env caches rs tex t r bm w
            h1 h2 h3 h4))
        · exact Or.inr (Or.inr ⟨h4, copyTextureInto_draws env caches rs tex t r bm w
            h1 h2 h3 h4⟩)
      · refine Or.inl (copyTextureInto_invalid env caches rs tex t r bm w (Or.inr (Or.inr ?_)))
        by_cases hc : bm.colorType = kRGBA_F16_SkColorType
        · refine ⟨hc, ?_⟩
          cases hf : caches.hasRenderableFloatTextures
          · rfl
          · exact absurd (fun _ => hf) h3
        · exact absurd (fun h => absurd h hc) h3
    · exact Or.inl (copyTextureInto_invalid env caches rs tex t r bm w
        (Or.inr (Or.inl (by omega))))
  · exact Or.inl (copyTextureInto_invalid env caches rs tex t r bm w (Or.inl (by omega)))

theorem copyTextureInto_extends (env : Env) (caches : Caches) (rs : RenderState) (tex : Texture)
    (t : Matrix4) (r : Rect) (bm : SkBitmap) (w : World) :
    Extends w (copyTextureInto env caches rs tex t r bm w).2 := by
  rcases copyTextureInto_cases env caches rs tex t r bm w with h | h | ⟨_, h⟩
  · rw [h]; exact Extends.refl w
  · rw [h]; exact (Extends.refl w).emit _
  · rw [h]; exact Extends.append w _ _ _

/-- The early return of `copyImageInto` when the import raises a GL error (lines 383-394). -/
theorem copyImageInto_import_error (env : Env) (t : Matrix4) (iw ih : Int) (r : Rect)
    (bm : SkBitmap) (w : World) (herr : env.glGetError ≠ GL_NO_ERROR) :
    copyImageInto env t iw ih r bm w
      = (UnknownError,
          ((w.glGenTextures.2.emit (Event.bindExternalTexture (w.lastTexture + 1))).emit
            Event.glEGLImageTargetTexture2DOES)) := by
  unfold copyImageInto
  simp [herr, World.glGenTextures]

/-- The run of `copyImageInto` when the import raises no GL error (lines 396-403). -/
theorem copyImageInto_imported (env : Env) (t : Matrix4) (iw ih : Int) (r : Rect)
    (bm : SkBitmap) (w : World) (herr : env.glGetError = GL_NO_ERROR) :
    copyImageInto env t iw ih r bm w
      = ((copyTextureInto env env.caches env.renderState (importedTexture t iw ih w) t r bm
            (importedWorld w)).1,
         (copyTextureInto env env.caches env.renderState (importedTexture t iw ih w) t r bm
            (importedWorld w)).2.emit (Event.deleteTexture (w.lastTexture + 1))) := by
  unfold copyImageInto
  simp [herr, World.glGenTextures, importedTexture, importedWorld]

theorem copyImageInto_extends (env : Env) (t : Matrix4) (iw ih : Int) (r : Rect)
    (bm : SkBitmap) (w : World) : Extends w (copyImageInto env t iw ih r bm w).2 := by
  by_cases herr : env.glGetError = GL_NO_ERROR
  · rw [copyImageInto_imported env t iw ih r bm w herr]
    exact (((((Extends.refl w).glGenTextures).emit _).emit _).trans
      (copyTextureInto_extends _ _ _ _ _ _ _ _)).emit _
  · rw [copyImageInto_import_error env t iw ih r bm w herr]
    exact (((Extends.refl w).glGenTextures).emit _).emit _

/-- The GPU path starts with the EGL set-up and ends with the result of `copyImageInto`. -/
theorem gpuPath_result (env : Env) (gb : GraphicBuffer) (t : Matrix4) (r : Rect)
    (bm : SkBitmap) (w : World) :
    (gpuPath env gb t r bm w).1
      = if env.eglCreateImageKHR = true then
          (copyImageInto env t (toInt32 gb.getWidth) (toInt32 gb.getHeight) r bm
            ((w.emit Event.eglManagerInit).emit Event.eglCreateImageKHR)).1
        else UnknownError := by
  unfold gpuPath
  cases env.eglCreateImageKHR <;> simp

theorem gpuPath_extends (env : Env) (gb : GraphicBuffer) (t : Matrix4) (r : Rect)
    (bm : SkBitmap) (w : World) :
    Extends ((w.emit Event.eglManagerInit).emit Event.eglCreateImageKHR)
      (gpuPath env gb t r bm w).2 := by
  unfold gpuPath
  cases env.eglCreateImageKHR
  · simp only [Bool.not_false, if_true]
    exact Extends.refl _
  · simp only [Bool.not_true, Bool.false_eq_true, if_false]
    exact ((copyImageInto_extends _ _ _ _ _ _ _).emit _).emit _

/-- The engine entry: the fast path's success, or else the GPU path from the same world. -/
theorem copyGraphicBufferInto_eq (env : Env) (gb : GraphicBuffer) (t : Matrix4) (r : Rect)
    (bm : SkBitmap) (w : World) :
    copyGraphicBufferInto env gb t r bm w
      = if (copyFromPrivateHandle env gb t r bm w).1 = Success then
          (Success, (copyFromPrivateHandle env gb t r bm w).2)
        else gpuPath env gb t r bm w := by
  unfold copyGraphicBufferInto
  by_cases h : (copyFromPrivateHandle env gb t r bm w).1 = Success
  · simp [h]
  · have hw := copyFromPrivateHandle_fail_world env gb t r bm w h
    simp [h, hw]

/-- Every run of the engine entry makes at least one collaborator call. -/
theorem copyGraphicBufferInto_log_lt (env : Env) (gb : GraphicBuffer) (t : Matrix4) (r : Rect)
    (bm : SkBitmap) (w : World) :
    w.log.length < (copyGraphicBufferInto env gb t r bm w).2.log.length := by
  rw [copyGraphicBufferInto_eq]
  by_cases h : (copyFromPrivateHandle env gb t r bm w).1 = Success
  · rw [if_pos h]
    obtain ⟨w1, hw1, heq⟩ := copyFromPrivateHandle_success_notifies env gb t r bm w h
    have := hw1.length_le
    simp only [heq, emit_log, List.length_append, List.length_singleton]
    omega
  · rw [if_neg h]
    have := (gpuPath_extends env gb t r bm w).length_le
    simp only [emit_log, List.length_append, List.length_singleton] at this
    omega

/-- The GPU path's result code does not look at the crop rectangle. -/
theorem copyTextureInto_code_crop (env : Env) (caches : Caches) (rs : RenderState)
    (tex : Texture) (t : Matrix4) (r r1 : Rect) (bm : SkBitmap) (w w1 : World) :
    (copyTextureInto env caches rs tex t r bm w).1
      = (copyTextureInto env caches rs tex t r1 bm w1).1 := by
  unfold copyTextureInto
  simp only []
  repeat' split
  all_goals rfl


/-- A fast path that succeeds has passed every check of lines 84-143. -/
theorem copyFromPrivateHandle_success_checks (env : Env) (gb : GraphicBuffer) (t : Matrix4)
    (r : Rect) (bm : SkBitmap) (w : World)
    (hs : (copyFromPrivateHandle env gb t r bm w).1 = Success) :
    PassesChecks env gb t r bm := by
  unfold copyFromPrivateHandle at hs
  simp only [] at hs
  split at hs
  · simp at hs
  rename_i h1
  split at hs
  · simp at hs
  rename_i h2
  split at hs
  · simp at hs
  rename_i h3
  split at hs
  · simp at hs
  rename_i h4
  split at hs
  · simp at hs
  rename_i h5
  split at hs
  · simp at hs
  rename_i h6
  clear hs
  simp only [Bool.not_eq_true', Bool.not_eq_false] at h1
  simp only [Bool.or_eq_true, bne_iff_ne, ne_eq, Bool.and_eq_true, Bool.not_eq_true',
    not_or, not_and, not_not] at h2
  simp only [bne_iff_ne, ne_eq, not_not] at h3
  simp only [Bool.not_eq_true', Bool.not_eq_false] at h4
  simp only [Bool.or_eq_true, decide_eq_true_eq, not_or, not_lt, gt_iff_lt] at h5
  simp only [Bool.or_eq_true, decide_eq_true_eq, not_or, not_lt] at h6
  have hbpp : bm.bytesPerPixel = 4 := by
    simp [SkBitmap.bytesPerPixel, h3, SkColorType.bytesPerPixel]
  rw [hbpp] at h6
  obtain ⟨⟨⟨ha, hb⟩, hc⟩, hd⟩ := h2
  refine ⟨h1, ha, hb, ?_, hd, h3, h4, h5.1, h5.2, h6.1, h6.2⟩
  cases he : r.isEmpty
  · right
    exact hc he
  · left; rfl

/-- The result code of `copyImageInto` does not look at the crop rectangle. -/
theorem copyImageInto_code_crop (env : Env) (t : Matrix4) (iw ih : Int) (r r1 : Rect)
    (bm : SkBitmap) (w : World) :
    (copyImageInto env t iw ih r bm w).1 = (copyImageInto env t iw ih r1 bm w).1 := by
  by_cases herr : env.glGetError = GL_NO_ERROR
  · rw [copyImageInto_imported env t iw ih r bm w herr,
      copyImageInto_imported env t iw ih r1 bm w herr]
    exact copyTextureInto_code_crop _ _ _ _ _ _ _ _ _ _
  · rw [copyImageInto_import_error env t iw ih r bm w herr,
      copyImageInto_import_error env t iw ih r1 bm w herr]

/-- The result code of the GPU path does not look at the crop rectangle. -/
theorem gpuPath_code_crop (env : Env) (gb : GraphicBuffer) (t : Matrix4) (r r1 : Rect)
    (bm : SkBitmap) (w : World) :
    (gpuPath env gb t r bm w).1 = (gpuPath env gb t r1 bm w).1 := by
  rw [gpuPath_result, gpuPath_result]
  split
  · exact copyImageInto_code_crop _ _ _ _ _ _ _ _
  · rfl

/-- After the checks, a non-empty crop with coordinates in the range of `int` that leaves
the handle's extent is turned away (line 167). -/
theorem copyFromPrivateHandle_out_of_range (env : Env) (gb : GraphicBuffer) (t : Matrix4)
    (r : Rect) (bm : SkBitmap) (w : World) (h : PassesChecks env gb t r bm)
    (hne : r.isEmpty = false)
    (hl0 : -2147483648 ≤ r.left) (ht0 : -2147483648 ≤ r.top)
    (hr1 : r.right < 2147483648) (hb1 : r.bottom < 2147483648)
    (hout : gb.handle.width < r.left + r.getWidth ∨ gb.handle.height < r.top + r.getHeight) :
    copyFromPrivateHandle env gb t r bm w = (DestinationInvalid, w) := by
  rw [copyFromPrivateHandle_of_checks env gb t r bm w h]
  have hdims : r.getWidth = bm.width ∧ r.getHeight = bm.height := by
    rcases h.crop with hc | hc
    · rw [hne] at hc; exact absurd hc (by decide)
    · exact hc
  have hw0 : 0 ≤ bm.width := by have := h.sameWidth; omega
  have hh0 : 0 ≤ bm.height := by have := h.sameHeight; omega
  have hgw : r.getWidth = r.right - r.left := rfl
  have hgh : r.getHeight = r.bottom - r.top := rfl
  have hl : cropLeft r = r.left := by
    simp only [cropLeft, hne, Bool.not_false, if_true]
    exact floatToInt_of_range _ hl0 (by omega)
  have ht : cropTop r = r.top := by
    simp only [cropTop, hne, Bool.not_false, if_true]
    exact floatToInt_of_range _ ht0 (by omega)
  have hfw := h.fitsWidth
  have hfh := h.fitsHeight
  have e1 : toInt32 (cropLeft r + bm.width) = r.left + r.getWidth := by
    rw [hl, ← hdims.1]
    exact toInt32_of_range _ (by omega) (by omega)
  have e2 : toInt32 (cropTop r + bm.height) = r.top + r.getHeight := by
    rw [ht, ← hdims.2]
    exact toInt32_of_range _ (by omega) (by omega)
  rw [if_neg (by simp [hne]), if_pos (by rw [e1, e2]; exact hout)]

/-! ## Resource counts -/

theorem creations_append (a b : List Event) : creations (a ++ b) = creations a + creations b :=
  List.countP_append _ a b

theorem deletions_append (a b : List Event) : deletions (a ++ b) = deletions a + deletions b :=
  List.countP_append _ a b

/-- A `copyTextureInto` call deletes exactly what it created, however it ends. -/
theorem copyTextureInto_balanced (env : Env) (caches : Caches) (rs : RenderState)
    (tex : Texture) (t : Matrix4) (r : Rect) (bm : SkBitmap) (w : World) :
    creations (copyTextureInto env caches rs tex t r bm w).2.log + deletions w.log
      = deletions (copyTextureInto env caches rs tex t r bm w).2.log + creations w.log := by
  rcases copyTextureInto_cases env caches rs tex t r bm w with h | h | ⟨hf, h⟩
  · rw [h]; simp only []; omega
  · rw [h]
    simp [emit_log, creations_append, deletions_append, creations, deletions, Event.creates,
      Event.deletes]
    omega
  · rw [h]
    simp [creations_append, deletions_append, creations, deletions, Event.creates,
      Event.deletes, drawCalls, hf]
    omega

/-- Without a GL error at the import, `copyImageInto` deletes exactly what it created. -/
theorem copyImageInto_balanced (env : Env) (t : Matrix4) (iw ih : Int) (r : Rect)
    (bm : SkBitmap) (w : World) (herr : env.glGetError = GL_NO_ERROR) :
    creations (copyImageInto env t iw ih r bm w).2.log + deletions w.log
      = deletions (copyImageInto env t iw ih r bm w).2.log + creations w.log := by
  rw [copyImageInto_imported env t iw ih r bm w herr]
  have h := copyTextureInto_balanced env env.caches env.renderState (importedTexture t iw ih w)
    t r bm (importedWorld w)
  have h1 : creations (importedWorld w).log = creations w.log + 1 := by
    simp [importedWorld, World.glGenTextures, emit_log, creations_append, creations,
      Event.creates]
  have h2 : deletions (importedWorld w).log = deletions w.log := by
    simp [importedWorld, World.glGenTextures, emit_log, deletions_append, deletions,
      Event.deletes]
  simp only [emit_log, creations_append, deletions_append]
  have h3 : creations [Event.deleteTexture (w.lastTexture + 1)] = 0 := by
    simp [creations, Event.creates]
  have h4 : deletions [Event.deleteTexture (w.lastTexture + 1)] = 1 := by
    simp [deletions, Event.deletes]
  omega

theorem copyImageInto_balanced_witness :
    envOn.glGetError = GL_NO_ERROR
    ∧ creations (copyImageInto envOn defaultTransform 4 4 Rect.empty bitmap4 world0).2.log
        + deletions world0.log
      = deletions (copyImageInto envOn defaultTransform 4 4 Rect.empty bitmap4 world0).2.log
        + creations world0.log :=
  ⟨rfl, copyImageInto_balanced envOn defaultTransform 4 4 Rect.empty bitmap4 world0 rfl⟩

/-! ## Further facts about the entry points -/

/-- A fetch that reports an error ends the call with `UnknownError` (lines 51-54), whatever
the out-parameters hold; the only call made is the fetch. -/
theorem copySurfaceInto_fetch_error (env : Env) (surface : Surface) (srcRect : Rect)
    (bitmap : SkBitmap) (w : World) (herr : surface.err ≠ NO_ERROR) :
    copySurfaceInto env surface srcRect bitmap w
      = (UnknownError, w.emit Event.getLastQueuedBuffer) := by
  simp [copySurfaceInto, herr]

theorem copySurfaceInto_fetch_error_witness :
    deadSurface.err ≠ NO_ERROR
    ∧ copySurfaceInto envOn deadSurface Rect.empty bitmap4 world0
        = (UnknownError, world0.emit Event.getLastQueuedBuffer) :=
  ⟨by decide,
    copySurfaceInto_fetch_error envOn deadSurface Rect.empty bitmap4 world0 (by decide)⟩

/-- The `int` sum of line 167 wraps: for the crop from `left = 2147483520` to
`right = 2147483648` on a 128 pixel wide buffer, `left + bitmapWidth` is `2^31`, which as an
`int` is `-2^31` and not greater than the buffer's width, so the check passes and the row
is copied from source offset `left * 4`. -/
theorem copyFromPrivateHandle_range_check_wraps :
    PassesChecks envOn buffer128 defaultTransform ⟨2147483520, 0, 2147483648, 1⟩ bitmap128
    ∧ buffer128.handle.width
        < (⟨2147483520, 0, 2147483648, 1⟩ : Rect).left
          + (⟨2147483520, 0, 2147483648, 1⟩ : Rect).getWidth
    ∧ toInt32 (cropLeft ⟨2147483520, 0, 2147483648, 1⟩ + bitmap128.width) = -2147483648
    ∧ (copyFromPrivateHandle envOn buffer128 defaultTransform ⟨2147483520, 0, 2147483648, 1⟩
        bitmap128 world0).1 = Success
    ∧ (copyFromPrivateHandle envOn buffer128 defaultTransform ⟨2147483520, 0, 2147483648, 1⟩
        bitmap128 world0).2.log
      = [Event.memcpy 0 8589934080 512, Event.notifyPixelsChanged] :=
  ⟨⟨rfl, by decide, by decide, by decide, rfl, rfl, rfl, by decide, by decide, by decide,
    by decide⟩, by decide, by decide, by decide, by decide⟩

/-! ## The claims -/

/-- Claim C1: when the producer hands over a buffer (the fetch reports `NO_ERROR` and sets
the buffer) whose usage flags include `GRALLOC_USAGE_PROTECTED`, `copySurfaceInto` returns
`SourceInvalid` and leaves the world as it was after the fetch: the only call made is the
fetch itself, so there is no fence wait, no fast-path or GPU copy step and no write to the
bitmap. -/
theorem copySurfaceInto_protected_source (env : Env) (surface : Surface) (srcRect : Rect)
    (bitmap : SkBitmap) (w : World) (sourceBuffer : GraphicBuffer)
    (hbuf : surface.handsOver sourceBuffer)
    (hprot : sourceBuffer.getUsage &&& GRALLOC_USAGE_PROTECTED ≠ 0) :
    (copySurfaceInto env surface srcRect bitmap w).1 = SourceInvalid
    ∧ (copySurfaceInto env surface srcRect bitmap w).2.log
        = w.log ++ [Event.getLastQueuedBuffer]
    ∧ (copySurfaceInto env surface srcRect bitmap w).2.pixels = w.pixels
    ∧ (copySurfaceInto env surface srcRect bitmap w).2.lastTexture = w.lastTexture := by
  have h : copySurfaceInto env surface srcRect bitmap w
      = (SourceInvalid, w.emit Event.getLastQueuedBuffer) := by
    simp [copySurfaceInto, hbuf.1, hbuf.2, hprot]
  rw [h]
  exact ⟨rfl, rfl, rfl, rfl⟩

theorem copySurfaceInto_protected_source_witness :
    protectedSurface.handsOver protectedBuffer
    ∧ protectedBuffer.getUsage &&& GRALLOC_USAGE_PROTECTED ≠ 0
    ∧ (copySurfaceInto envOn protectedSurface Rect.empty bitmap4 world0).1 = SourceInvalid
    ∧ (copySurfaceInto envOn protectedSurface Rect.empty bitmap4 world0).2.log
        = world0.log ++ [Event.getLastQueuedBuffer] :=
  have h := copySurfaceInto_protected_source envOn protectedSurface Rect.empty bitmap4 world0
    protectedBuffer ⟨rfl, rfl⟩ (by decide)
  ⟨⟨rfl, rfl⟩, by decide, h.1, h.2.1⟩

/-- Claim C2: when the producer hands over a buffer that is not protected and the 500 ms
fence wait does not return `NO_ERROR`, `copySurfaceInto` returns `Timeout`; the calls it made
are the fetch and the wait and nothing else, so `notifyPixelsChanged` is not among them, the
bitmap memory is untouched, and `copyGraphicBufferInto` has not run (a run of it from the
world after the wait, on any buffer and transform, would have lengthened the log). -/
theorem copySurfaceInto_fence_timeout (env : Env) (surface : Surface) (srcRect : Rect)
    (bitmap : SkBitmap) (w : World) (sourceBuffer : GraphicBuffer)
    (hbuf : surface.handsOver sourceBuffer)
    (hprot : sourceBuffer.getUsage &&& GRALLOC_USAGE_PROTECTED = 0)
    (hwait : surface.sourceFence.wait 500 ≠ NO_ERROR) :
    (copySurfaceInto env surface srcRect bitmap w).1 = Timeout
    ∧ (copySurfaceInto env surface srcRect bitmap w).2.log
        = w.log ++ [Event.getLastQueuedBuffer, Event.fenceWait 500]
    ∧ (copySurfaceInto env surface srcRect bitmap w).2.pixels = w.pixels
    ∧ (copySurfaceInto env surface srcRect bitmap w).2.lastTexture = w.lastTexture
    ∧ ∀ (gb : GraphicBuffer) (t : Matrix4),
        (copySurfaceInto env surface srcRect bitmap w).2.log.length
          < (copyGraphicBufferInto env gb t srcRect bitmap
              ((w.emit Event.getLastQueuedBuffer).emit (Event.fenceWait 500))).2.log.length := by
  have h : copySurfaceInto env surface srcRect bitmap w
      = (Timeout, (w.emit Event.getLastQueuedBuffer).emit (Event.fenceWait 500)) := by
    simp [copySurfaceInto, hbuf.1, hbuf.2, hprot, hwait]
  rw [h]
  refine ⟨rfl, ?_, rfl, rfl, ?_⟩
  · simp [emit_log]
  · intro gb t
    exact copyGraphicBufferInto_log_lt env gb t srcRect bitmap _

theorem copySurfaceInto_fence_timeout_witness :
    stuckSurface.handsOver buffer4
    ∧ buffer4.getUsage &&& GRALLOC_USAGE_PROTECTED = 0
    ∧ stuckSurface.sourceFence.wait 500 ≠ NO_ERROR
    ∧ (copySurfaceInto envOn stuckSurface Rect.empty bitmap4 world0).1 = Timeout
    ∧ (copySurfaceInto envOn stuckSurface Rect.empty bitmap4 world0).2.log
        = world0.log ++ [Event.getLastQueuedBuffer, Event.fenceWait 500] :=
  have h := copySurfaceInto_fence_timeout envOn stuckSurface Rect.empty bitmap4 world0
    buffer4 ⟨rfl, rfl⟩ (by decide) (by decide)
  ⟨⟨rfl, rfl⟩, by decide, by decide, h.1, h.2.1⟩

/-- Claim C3: the `switch` of `copyTextureInto` maps every colour type to a triple
(format, internalFormat, type): `ALPHA_8`, `RGB_565`, `ARGB_4444` and `RGBA_F16` to their
own triples, `RGBA_8888` and every other colour type to
`(GL_RGBA, GL_RGBA, GL_UNSIGNED_BYTE)`; and that triple is what a successful
`copyTextureInto` hands to `glTexImage2D` and `glReadPixels`. -/
theorem glFormat_table :
    glFormat kAlpha_8_SkColorType = (GL_ALPHA, GL_ALPHA, GL_UNSIGNED_BYTE)
    ∧ glFormat kRGB_565_SkColorType = (GL_RGB, GL_RGB, GL_UNSIGNED_SHORT_5_6_5)
    ∧ glFormat kARGB_4444_SkColorType = (GL_RGBA, GL_RGBA, GL_UNSIGNED_SHORT_4_4_4_4)
    ∧ glFormat kRGBA_F16_SkColorType = (GL_RGBA, GL_RGBA16F, GL_HALF_FLOAT)
    ∧ glFormat kRGBA_8888_SkColorType = (GL_RGBA, GL_RGBA, GL_UNSIGNED_BYTE)
    ∧ glFormat kN32_SkColorType = (GL_RGBA, GL_RGBA, GL_UNSIGNED_BYTE)
    ∧ (∀ ct : SkColorType, ct ≠ kAlpha_8_SkColorType → ct ≠ kRGB_565_SkColorType →
        ct ≠ kARGB_4444_SkColorType → ct ≠ kRGBA_F16_SkColorType →
        glFormat ct = (GL_RGBA, GL_RGBA, GL_UNSIGNED_BYTE))
    ∧ ∀ (env : Env) (caches : Caches) (rs : RenderState) (tex : Texture) (t : Matrix4)
        (r : Rect) (bm : SkBitmap) (w : World),
        (copyTextureInto env caches rs tex t r bm w).1 = Success →
        Event.glTexImage2D (glFormat bm.colorType).2.1 bm.width bm.height
            (glFormat bm.colorType).1 (glFormat bm.colorType).2.2
          ∈ (copyTextureInto env caches rs tex t r bm w).2.log
        ∧ Event.glReadPixels bm.width bm.height (glFormat bm.colorType).1
            (glFormat bm.colorType).2.2
          ∈ (copyTextureInto env caches rs tex t r bm w).2.log := by
  refine ⟨rfl, rfl, rfl, rfl, rfl, rfl, ?_, ?_⟩
  · intro ct h1 h2 h3 h4
    cases ct <;> first | rfl | contradiction
  · intro env caches rs tex t r bm w hs
    rcases copyTextureInto_cases env caches rs tex t r bm w with h | h | ⟨_, h⟩
    · rw [h] at hs; simp at hs
    · rw [h] at hs; simp at hs
    · rw [h]
      constructor <;> simp [drawCalls]

theorem glFormat_table_witness :
    (copyTextureInto envOn envOn.caches envOn.renderState ⟨1, 4, 4⟩ defaultTransform
        Rect.empty bitmap4 world0).1 = Success
    ∧ Event.glTexImage2D GL_RGBA 4 4 GL_RGBA GL_UNSIGNED_BYTE
        ∈ (copyTextureInto envOn envOn.caches envOn.renderState ⟨1, 4, 4⟩ defaultTransform
            Rect.empty bitmap4 world0).2.log :=
  ⟨by decide, (glFormat_table.2.2.2.2.2.2.2 envOn envOn.caches envOn.renderState ⟨1, 4, 4⟩
    defaultTransform Rect.empty bitmap4 world0 (by decide)).1⟩


/-- Claim C4, as amended: with the toggle enabled, source buffer dimensions equal to the
bitmap's, a crop that is empty or has the bitmap's width and height, the reference
transform, an RGBA_8888 destination, a validated handle whose width, height and size pass
the checks (all of this is `PassesChecks`), a non-null pixel pointer, destination rows at
least `width * 4` bytes apart (and exactly that in the contiguous branch), and the crop
offset within the handle's extent (line 167): the result is `Success` and destination row
`y` byte `i` is the source byte at `(top + y) * (bufferWidth * 4) + left * 4 + i`, with
`top = left = 0` for an empty crop, in the contiguous and in the row-by-row branch. -/
theorem copyFromPrivateHandle_rows (env : Env) (gb : GraphicBuffer) (t : Matrix4) (r : Rect)
    (bm : SkBitmap) (w : World) (h : PassesChecks env gb t r bm)
    (hpix : bm.hasPixels = true)
    (hrow : bm.width * 4 ≤ bm.rowBytes)
    (hpacked : r.isEmpty = true → bm.width = gb.handle.width → bm.rowBytes = bm.width * 4)
    (hleft : cropLeft r + bm.width ≤ gb.handle.width)
    (htop : cropTop r + bm.height ≤ gb.handle.height) :
    (copyFromPrivateHandle env gb t r bm w).1 = Success ∧
    ∀ y i : Int, 0 ≤ y → y < bm.height → 0 ≤ i → i < bm.width * 4 →
      (copyFromPrivateHandle env gb t r bm w).2.pixels (y * bm.rowBytes + i)
        = gb.handle.base ((cropTop r + y) * (gb.handle.width * 4) + cropLeft r * 4 + i) := by
  rw [copyFromPrivateHandle_of_checks env gb t r bm w h]
  have hw0 : 0 ≤ bm.width := by
    have := h.sameWidth
    omega
  by_cases hq : r.isEmpty = true ∧ bm.width = gb.handle.width
  · rw [if_pos hq, if_pos hpix]
    obtain ⟨he, hwe⟩ := hq
    have hR := hpacked he hwe
    refine ⟨rfl, ?_⟩
    intro y i hy hy1 hi hi1
    simp only [emit_pixels, memcpy_pixels]
    unfold memcpyInto
    have hlt : (y + 1) * (bm.width * 4) ≤ bm.height * (bm.width * 4) :=
      Int.mul_le_mul_of_nonneg_right (by omega) (by omega)
    have hexp : (y + 1) * (bm.width * 4) = y * (bm.width * 4) + bm.width * 4 := by ring
    have hmin2 : bm.height * (bm.width * 4) = gb.handle.width * 4 * bm.height := by
      rw [← hwe]; ring
    have hmin := h.sizeMin
    have hy0 : 0 ≤ y * (bm.width * 4) := Int.mul_nonneg hy (by omega)
    have hcast : ((gb.handle.size.toNat : Nat) : Int) = gb.handle.size :=
      Int.toNat_of_nonneg h.sizeNonneg
    have hl : cropLeft r = 0 := by simp [cropLeft, he]
    have ht : cropTop r = 0 := by simp [cropTop, he]
    rw [if_pos (by rw [hR]; omega), hl, ht, hR, ← hwe]
    congr 1
    ring
  · rw [if_neg hq, if_neg (range_check_passes r bm _ _ hw0
      (by have := h.sameHeight; omega) hleft htop)]
    have hok := copyRows_ok bm gb.handle.base (gb.handle.width * 4 * cropTop r)
      (gb.handle.width * 4) (bm.width * 4) (cropLeft r) 4 hpix bm.height.toNat 0 w
    have hpx := copyRows_pixels bm gb.handle.base (gb.handle.width * 4 * cropTop r)
      (gb.handle.width * 4) (bm.width * 4) (cropLeft r) 4 hpix (by omega) hrow
      bm.height.toNat 0 w
    generalize copyRows bm gb.handle.base (gb.handle.width * 4 * cropTop r)
      (gb.handle.width * 4) (bm.width * 4) (cropLeft r) 4 bm.height.toNat 0 w = res at hok hpx
    obtain ⟨o, w1⟩ := res
    simp only at hok
    subst hok
    refine ⟨rfl, ?_⟩
    intro y i hy hy1 hi hi1
    simp only [emit_pixels]
    rw [hpx y i hy (by rw [Int.toNat_of_nonneg (by omega)]; omega) hi hi1]
    congr 1
    ring

theorem copyFromPrivateHandle_rows_witness :
    PassesChecks envOn bufferPadded defaultTransform ⟨2, 0, 6, 4⟩ bitmap4
    ∧ (copyFromPrivateHandle envOn bufferPadded defaultTransform ⟨2, 0, 6, 4⟩ bitmap4 world0).1
      = Success
    ∧ (copyFromPrivateHandle envOn bufferPadded defaultTransform ⟨2, 0, 6, 4⟩ bitmap4
          world0).2.pixels (1 * bitmap4.rowBytes + 3)
        = bufferPadded.handle.base
            ((cropTop ⟨2, 0, 6, 4⟩ + 1) * (bufferPadded.handle.width * 4)
              + cropLeft ⟨2, 0, 6, 4⟩ * 4 + 3) :=
  have hc : PassesChecks envOn bufferPadded defaultTransform ⟨2, 0, 6, 4⟩ bitmap4 :=
    ⟨rfl, by decide, by decide, by decide, rfl, rfl, rfl, by decide, by decide, by decide,
      by decide⟩
  have h := copyFromPrivateHandle_rows envOn bufferPadded defaultTransform ⟨2, 0, 6, 4⟩ bitmap4
    world0 hc rfl (by decide) (by decide) (by decide) (by decide)
  ⟨hc, h.1, h.2 1 3 (by decide) (by decide) (by decide) (by decide)⟩

/-- Claim C4 as stated fails in two ways. A non-empty crop of another size than the bitmap
meets every condition the claim lists, and the fast path returns `UnknownError`. And in the
contiguous branch a bitmap whose rows are further apart than `width * 4` bytes gets the
source bytes laid out back to back: row 1 byte 0 is not the source byte at offset 4. -/
theorem crop_size_and_row_stride_break_the_copy :
    (envOn.workaround_enabled = true
      ∧ (buffer4.getWidth : Int) = bitmap4.width ∧ (buffer4.getHeight : Int) = bitmap4.height
      ∧ bitmap4.colorType = kRGBA_8888_SkColorType ∧ bitmap4.hasPixels = true
      ∧ buffer4.handle.validate = true
      ∧ bitmap4.width ≤ buffer4.handle.width ∧ bitmap4.height ≤ buffer4.handle.height
      ∧ 0 ≤ buffer4.handle.size
      ∧ buffer4.handle.width * 4 * bitmap4.height ≤ buffer4.handle.size
      ∧ (copyFromPrivateHandle envOn buffer4 defaultTransform ⟨0, 0, 2, 2⟩ bitmap4 world0).1
          = UnknownError)
    ∧ (PassesChecks envOn buffer1x2 defaultTransform Rect.empty bitmap1x2
      ∧ bitmap1x2.hasPixels = true
      ∧ (copyFromPrivateHandle envOn buffer1x2 defaultTransform Rect.empty bitmap1x2 world0).1
          = Success
      ∧ (copyFromPrivateHandle envOn buffer1x2 defaultTransform Rect.empty bitmap1x2
            world0).2.pixels (1 * bitmap1x2.rowBytes + 0)
          ≠ buffer1x2.handle.base ((0 + 1) * (buffer1x2.handle.width * 4) + 0 * 4 + 0)) := by
  refine ⟨by decide, ⟨rfl, by decide, by decide, by decide, rfl, rfl, rfl, by decide,
    by decide, by decide, by decide⟩, rfl, by decide, by decide⟩

/-- Claim C5, as amended: for a non-empty crop whose coordinates are in the range of `int`
and whose `left + width` exceeds the handle's (padded) width, or whose `top + height`
exceeds its height, the fast path never succeeds and, when its earlier checks pass, returns
`DestinationInvalid` without touching the world; `copyGraphicBufferInto` does not return
that code but runs the GPU path from the unchanged world and returns its result, and the
GPU path's result code does not depend on the crop. -/
theorem copyGraphicBufferInto_crop_out_of_range (env : Env) (gb : GraphicBuffer) (t : Matrix4)
    (r : Rect) (bm : SkBitmap) (w : World) (hne : r.isEmpty = false)
    (hl0 : -2147483648 ≤ r.left) (ht0 : -2147483648 ≤ r.top)
    (hr1 : r.right < 2147483648) (hb1 : r.bottom < 2147483648)
    (hout : gb.handle.width < r.left + r.getWidth ∨ gb.handle.height < r.top + r.getHeight) :
    (copyFromPrivateHandle env gb t r bm w).1 ≠ Success
    ∧ (PassesChecks env gb t r bm →
        copyFromPrivateHandle env gb t r bm w = (DestinationInvalid, w))
    ∧ copyGraphicBufferInto env gb t r bm w = gpuPath env gb t r bm w
    ∧ ∀ r1 : Rect, (gpuPath env gb t r bm w).1 = (gpuPath env gb t r1 bm w).1 := by
  have hfail : (copyFromPrivateHandle env gb t r bm w).1 ≠ Success := by
    intro hs
    have hc := copyFromPrivateHandle_success_checks env gb t r bm w hs
    rw [copyFromPrivateHandle_out_of_range env gb t r bm w hc hne hl0 ht0 hr1 hb1 hout] at hs
    simp at hs
  refine ⟨hfail,
    fun hc => copyFromPrivateHandle_out_of_range env gb t r bm w hc hne hl0 ht0 hr1 hb1 hout,
    ?_, fun r1 => gpuPath_code_crop env gb t r r1 bm w⟩
  rw [copyGraphicBufferInto_eq, if_neg hfail]

theorem copyGraphicBufferInto_crop_out_of_range_witness :
    copyFromPrivateHandle envOn buffer4 defaultTransform ⟨2, 0, 6, 4⟩ bitmap4 world0
      = (DestinationInvalid, world0)
    ∧ copyGraphicBufferInto envOn buffer4 defaultTransform ⟨2, 0, 6, 4⟩ bitmap4 world0
      = gpuPath envOn buffer4 defaultTransform ⟨2, 0, 6, 4⟩ bitmap4 world0 :=
  have h := copyGraphicBufferInto_crop_out_of_range envOn buffer4 defaultTransform
    ⟨2, 0, 6, 4⟩ bitmap4 world0 (by decide) (by decide) (by decide) (by decide) (by decide)
    (by decide)
  ⟨h.2.1 ⟨rfl, by decide, by decide, by decide, rfl, rfl, rfl, by decide, by decide,
    by decide, by decide⟩, h.2.2.1⟩

/-- Claim C5 as stated fails: a non-empty crop with `left + width = 6` on a source whose
padded width is 4 is turned away by the fast path, and `copyGraphicBufferInto` then draws it
on the GPU path and returns `Success`. -/
theorem out_of_range_crop_drawn_on_gpu :
    (⟨2, 0, 6, 4⟩ : Rect).isEmpty = false
    ∧ buffer4.handle.width < (⟨2, 0, 6, 4⟩ : Rect).left + (⟨2, 0, 6, 4⟩ : Rect).getWidth
    ∧ (copyFromPrivateHandle envOn buffer4 defaultTransform ⟨2, 0, 6, 4⟩ bitmap4 world0).1
        = DestinationInvalid
    ∧ (copyGraphicBufferInto envOn buffer4 defaultTransform ⟨2, 0, 6, 4⟩ bitmap4 world0).1
        = Success
    ∧ (copyGraphicBufferInto envOff buffer4 defaultTransform ⟨2, 0, 6, 4⟩ bitmap4 world0).1
        = Success := by
  decide


/-- Claim C6: whenever `copyFromPrivateHandle` does not return `Success`, its code is
dropped: `copyGraphicBufferInto` runs the GPU path (from the world the fast path left
unchanged) and returns exactly the GPU path's result, `UnknownError` if `eglCreateImageKHR`
yields no image and the result of `copyImageInto` otherwise. -/
theorem copyGraphicBufferInto_fallback (env : Env) (gb : GraphicBuffer) (t : Matrix4)
    (r : Rect) (bm : SkBitmap) (w : World)
    (hfast : (copyFromPrivateHandle env gb t r bm w).1 ≠ Success) :
    copyGraphicBufferInto env gb t r bm w = gpuPath env gb t r bm w
    ∧ (copyGraphicBufferInto env gb t r bm w).1
        = (if env.eglCreateImageKHR = true then
            (copyImageInto env t (toInt32 gb.getWidth) (toInt32 gb.getHeight) r bm
              ((w.emit Event.eglManagerInit).emit Event.eglCreateImageKHR)).1
          else UnknownError)
    ∧ Event.eglManagerInit ∈ (copyGraphicBufferInto env gb t r bm w).2.log
    ∧ Event.eglCreateImageKHR ∈ (copyGraphicBufferInto env gb t r bm w).2.log := by
  have h : copyGraphicBufferInto env gb t r bm w = gpuPath env gb t r bm w := by
    rw [copyGraphicBufferInto_eq, if_neg hfast]
  rw [h]
  refine ⟨rfl, gpuPath_result env gb t r bm w, ?_, ?_⟩
  · exact (gpuPath_extends env gb t r bm w).mem (by simp [emit_log])
  · exact (gpuPath_extends env gb t r bm w).mem (by simp [emit_log])

theorem copyGraphicBufferInto_fallback_witness :
    (copyFromPrivateHandle envOn buffer4 defaultTransform Rect.empty
        { bitmap4 with hasPixels := false } world0).1 = DestinationInvalid
    ∧ (copyGraphicBufferInto envOn buffer4 defaultTransform Rect.empty
        { bitmap4 with hasPixels := false } world0).1
      = (copyImageInto envOn defaultTransform 4 4 Rect.empty { bitmap4 with hasPixels := false }
          ((world0.emit Event.eglManagerInit).emit Event.eglCreateImageKHR)).1 :=
  ⟨by decide,
    (copyGraphicBufferInto_fallback envOn buffer4 defaultTransform Rect.empty
      { bitmap4 with hasPixels := false } world0 (by decide)).2.1⟩

/-- Claim C7 fails on the early return of `copyImageInto` (lines 391-394): when `glGetError`
reports an error after the image has been bound, the call returns `UnknownError` having
made exactly three calls, `glGenTextures` among them and no deletion, so it has created one
texture more than it has deleted. -/
theorem copyImageInto_import_error_leak (env : Env) (t : Matrix4) (iw ih : Int) (r : Rect)
    (bm : SkBitmap) (w : World) (herr : env.glGetError ≠ GL_NO_ERROR) :
    (copyImageInto env t iw ih r bm w).1 = UnknownError
    ∧ (copyImageInto env t iw ih r bm w).2.log
        = w.log ++ [Event.glGenTextures (w.lastTexture + 1),
            Event.bindExternalTexture (w.lastTexture + 1), Event.glEGLImageTargetTexture2DOES]
    ∧ creations (copyImageInto env t iw ih r bm w).2.log = creations w.log + 1
    ∧ deletions (copyImageInto env t iw ih r bm w).2.log = deletions w.log := by
  rw [copyImageInto_import_error env t iw ih r bm w herr]
  refine ⟨rfl, ?_, ?_, ?_⟩
  · simp [World.glGenTextures, emit_log]
  · simp [World.glGenTextures, emit_log, creations_append, creations, Event.creates]
  · simp [World.glGenTextures, emit_log, deletions_append, deletions, Event.deletes]

theorem copyImageInto_import_error_leak_witness :
    envImportError.glGetError ≠ GL_NO_ERROR
    ∧ (copyImageInto envImportError defaultTransform 4 4 Rect.empty bitmap4 world0).1
        = UnknownError
    ∧ creations (copyImageInto envImportError defaultTransform 4 4 Rect.empty bitmap4
        world0).2.log = 1
    ∧ deletions (copyImageInto envImportError defaultTransform 4 4 Rect.empty bitmap4
        world0).2.log = 0 :=
  have h := copyImageInto_import_error_leak envImportError defaultTransform 4 4 Rect.empty
    bitmap4 world0 (by decide)
  ⟨by decide, h.1, h.2.2.1, h.2.2.2⟩

/-- Claim C8: when the destination width or height exceeds `maxTextureSize`, or the
destination is `RGBA_F16` and the device has no renderable float textures, `copyTextureInto`
returns `DestinationInvalid` and leaves the world exactly as it found it: no call is logged
(no framebuffer or texture creation, no `notifyPixelsChanged`) and no byte is written. -/
theorem copyTextureInto_destination_invalid (env : Env) (caches : Caches) (rs : RenderState)
    (tex : Texture) (t : Matrix4) (r : Rect) (bm : SkBitmap) (w : World)
    (h : caches.maxTextureSize < bm.width ∨ caches.maxTextureSize < bm.height
      ∨ (bm.colorType = kRGBA_F16_SkColorType ∧ caches.hasRenderableFloatTextures = false)) :
    copyTextureInto env caches rs tex t r bm w = (DestinationInvalid, w) :=
  copyTextureInto_invalid env caches rs tex t r bm w h

theorem copyTextureInto_destination_invalid_witness :
    copyTextureInto envOn envOn.caches envOn.renderState ⟨1, 4, 4⟩ defaultTransform Rect.empty
        { bitmap4 with width := 4097 } world0 = (DestinationInvalid, world0)
    ∧ copyTextureInto envOn envOn.caches envOn.renderState ⟨1, 4, 4⟩ defaultTransform
        Rect.empty { bitmap4 with colorType := kRGBA_F16_SkColorType } world0
      = (DestinationInvalid, world0) :=
  ⟨copyTextureInto_destination_invalid envOn envOn.caches envOn.renderState ⟨1, 4, 4⟩
      defaultTransform Rect.empty { bitmap4 with width := 4097 } world0 (Or.inl (by decide)),
    copyTextureInto_destination_invalid envOn envOn.caches envOn.renderState ⟨1, 4, 4⟩
      defaultTransform Rect.empty { bitmap4 with colorType := kRGBA_F16_SkColorType } world0
      (Or.inr (Or.inr ⟨rfl, rfl⟩))⟩

/-- Claim C9: when the producer has no previously queued buffer (the fetch reports
`NO_ERROR` and the fetched buffer is absent), `copySurfaceInto` returns `SourceEmpty` and
has made no call besides the fetch: no fence wait and no copy, and the bitmap memory and
the GL state are as before. -/
theorem copySurfaceInto_source_empty (env : Env) (surface : Surface) (srcRect : Rect)
    (bitmap : SkBitmap) (w : World) (hnone : surface.hasNoQueuedBuffer) :
    (copySurfaceInto env surface srcRect bitmap w).1 = SourceEmpty
    ∧ (copySurfaceInto env surface srcRect bitmap w).2.log
        = w.log ++ [Event.getLastQueuedBuffer]
    ∧ (copySurfaceInto env surface srcRect bitmap w).2.pixels = w.pixels
    ∧ (copySurfaceInto env surface srcRect bitmap w).2.lastTexture = w.lastTexture := by
  have h : copySurfaceInto env surface srcRect bitmap w
      = (SourceEmpty, w.emit Event.getLastQueuedBuffer) := by
    simp [copySurfaceInto, hnone.1, hnone.2]
  rw [h]
  exact ⟨rfl, rfl, rfl, rfl⟩

theorem copySurfaceInto_source_empty_witness :
    emptySurface.hasNoQueuedBuffer
    ∧ (copySurfaceInto envOn emptySurface Rect.empty bitmap4 world0).1 = SourceEmpty
    ∧ (copySurfaceInto envOn emptySurface Rect.empty bitmap4 world0).2.log
        = world0.log ++ [Event.getLastQueuedBuffer] :=
  have h := copySurfaceInto_source_empty envOn emptySurface Rect.empty bitmap4 world0
    ⟨rfl, rfl⟩
  ⟨⟨rfl, rfl⟩, h.1, h.2.1⟩

/-- Claim C10, as amended: with the toggle enabled and the reference transform,
`copyFromPrivateHandle` gets past its size gate (lines 101-113), that is returns something
other than `UnknownError`, exactly when the source buffer's width and height equal the
bitmap's AND the crop is empty or has the bitmap's width and height. -/
theorem copyFromPrivateHandle_size_gate (env : Env) (gb : GraphicBuffer) (t : Matrix4)
    (r : Rect) (bm : SkBitmap) (w : World)
    (htoggle : env.workaround_enabled = true) (ht : t = defaultTransform) :
    (copyFromPrivateHandle env gb t r bm w).1 ≠ UnknownError
      ↔ ((gb.getWidth : Int) = bm.width ∧ (gb.getHeight : Int) = bm.height
          ∧ (r.isEmpty = true ∨ (r.getWidth = bm.width ∧ r.getHeight = bm.height))) := by
  constructor
  · intro hne
    by_contra hsize
    apply hne
    have hgate : ((gb.getWidth : Int) != bm.width || (gb.getHeight : Int) != bm.height
        || (!r.isEmpty && (r.getWidth != bm.width || r.getHeight != bm.height))
        || t != defaultTransform) = true := by
      by_contra hg
      apply hsize
      simp only [Bool.or_eq_true, bne_iff_ne, ne_eq, Bool.and_eq_true, Bool.not_eq_true',
        not_or, not_and, not_not] at hg
      obtain ⟨⟨⟨ha, hb⟩, hc⟩, _⟩ := hg
      refine ⟨ha, hb, ?_⟩
      cases he : r.isEmpty
      · exact Or.inr (hc he)
      · exact Or.inl rfl
    unfold copyFromPrivateHandle
    simp only [htoggle, Bool.not_true, Bool.false_eq_true, if_false, hgate, if_true]
  · rintro ⟨ha, hb, hc⟩
    have hgate : ((gb.getWidth : Int) != bm.width || (gb.getHeight : Int) != bm.height
        || (!r.isEmpty && (r.getWidth != bm.width || r.getHeight != bm.height))
        || t != defaultTransform) = false := by
      rcases hc with hc | ⟨hc1, hc2⟩
      · simp [ha, hb, hc, ht]
      · simp [ha, hb, hc1, hc2, ht]
    unfold copyFromPrivateHandle
    simp only [htoggle, Bool.not_true, Bool.false_eq_true, if_false, hgate]
    repeat' split
    all_goals (try simp)
    rename_i heq
    rw [(copyRows_fail _ _ _ _ _ _ _ _ _ _ _ _ heq).1]
    decide

theorem copyFromPrivateHandle_size_gate_witness :
    ((copyFromPrivateHandle envOn buffer4 defaultTransform ⟨0, 0, 4, 4⟩ bitmap4 world0).1
        ≠ UnknownError
      ↔ ((buffer4.getWidth : Int) = bitmap4.width ∧ (buffer4.getHeight : Int) = bitmap4.height
          ∧ ((⟨0, 0, 4, 4⟩ : Rect).isEmpty = true
            ∨ ((⟨0, 0, 4, 4⟩ : Rect).getWidth = bitmap4.width
              ∧ (⟨0, 0, 4, 4⟩ : Rect).getHeight = bitmap4.height))))
    ∧ (copyFromPrivateHandle envOn buffer4 defaultTransform ⟨0, 0, 4, 4⟩ bitmap4 world0).1
        = Success :=
  ⟨copyFromPrivateHandle_size_gate envOn buffer4 defaultTransform ⟨0, 0, 4, 4⟩ bitmap4 world0
    rfl rfl, by decide⟩

/-- Claim C10 as stated fails in both halves of its disjunction. A non-empty 4x4 crop of an
8x8 source has the size of the 4x4 bitmap, and the fast path is turned away at the size gate
because the source's dimensions differ. And a source of the bitmap's size with a non-empty
crop of another size is turned away as well. -/
theorem crop_of_bitmap_size_still_gated :
    (envOn.workaround_enabled = true
      ∧ bitmap4.colorType = kRGBA_8888_SkColorType ∧ buffer8.handle.validate = true
      ∧ (⟨0, 0, 4, 4⟩ : Rect).isEmpty = false
      ∧ (⟨0, 0, 4, 4⟩ : Rect).getWidth = bitmap4.width
      ∧ (⟨0, 0, 4, 4⟩ : Rect).getHeight = bitmap4.height
      ∧ (copyFromPrivateHandle envOn buffer8 defaultTransform ⟨0, 0, 4, 4⟩ bitmap4 world0).1
          = UnknownError)
    ∧ ((buffer4.getWidth : Int) = bitmap4.width ∧ (buffer4.getHeight : Int) = bitmap4.height
      ∧ buffer4.handle.validate = true
      ∧ (copyFromPrivateHandle envOn buffer4 defaultTransform ⟨0, 0, 2, 2⟩ bitmap4 world0).1
          = UnknownError) := by
  decide

/-! ## What the fast path copies -/

/-- With a pixel pointer the row loop logs one `memcpy` per row and nothing else. -/
theorem copyRows_log (bm : SkBitmap) (d : Memory) (bt rb brb l bpp : Int)
    (hp : bm.hasPixels = true) (n : Nat) (y : Int) (w : World) :
    (copyRows bm d bt rb brb l bpp n y w).2.log = w.log ++ rowCopies bm bt rb brb l bpp n y := by
  induction n generalizing y w with
  | zero => simp [copyRows, rowCopies]
  | succ n ih =>
    rw [copyRows]
    simp only [SkBitmap.getAddr, hp, if_true]
    rw [ih, rowCopies]
    simp [World.memcpy]

/-- Row `k` of the row loop is among its `memcpy` calls. -/
theorem rowCopies_mem (bm : SkBitmap) (bt rb brb l bpp : Int) (n : Nat) (y k : Int)
    (hk : y ≤ k) (hk1 : k < y + n) :
    Event.memcpy (k * bm.rowBytes) (bt + k * rb + l * bpp) brb.toNat
      ∈ rowCopies bm bt rb brb l bpp n y := by
  induction n generalizing y with
  | zero => omega
  | succ n ih =>
    rw [rowCopies]
    by_cases hcur : k = y
    · subst hcur
      exact List.mem_cons_self _ _
    · exact List.mem_cons_of_mem _ (ih (y + 1) (by omega) (by push_cast at hk1; omega))

/-- The contiguous branch of the fast path (lines 147-154): one `memcpy` of `hnd->size`
bytes. -/
theorem copyFromPrivateHandle_contiguous (env : Env) (gb : GraphicBuffer) (t : Matrix4)
    (r : Rect) (bm : SkBitmap) (w : World) (h : PassesChecks env gb t r bm)
    (hempty : r.isEmpty = true) (hwidth : bm.width = gb.handle.width)
    (hpix : bm.hasPixels = true) :
    copyFromPrivateHandle env gb t r bm w
      = (Success,
          (w.memcpy 0 gb.handle.base 0 gb.handle.size.toNat).emit Event.notifyPixelsChanged) := by
  rw [copyFromPrivateHandle_of_checks env gb t r bm w h, if_pos ⟨hempty, hwidth⟩, if_pos hpix]

/-- The row-by-row branch of the fast path (lines 155-186) when the crop offset has passed
the range check of line 167. -/
theorem copyFromPrivateHandle_rowwise (env : Env) (gb : GraphicBuffer) (t : Matrix4)
    (r : Rect) (bm : SkBitmap) (w : World) (h : PassesChecks env gb t r bm)
    (hrows : ¬(r.isEmpty = true ∧ bm.width = gb.handle.width))
    (hpix : bm.hasPixels = true)
    (hleft : cropLeft r + bm.width ≤ gb.handle.width)
    (htop : cropTop r + bm.height ≤ gb.handle.height) :
    copyFromPrivateHandle env gb t r bm w
      = (Success,
          (copyRows bm gb.handle.base (gb.handle.width * 4 * cropTop r) (gb.handle.width * 4)
            (bm.width * 4) (cropLeft r) 4 bm.height.toNat 0 w).2.emit
              Event.notifyPixelsChanged) := by
  rw [copyFromPrivateHandle_of_checks env gb t r bm w h, if_neg hrows,
    if_neg (range_check_passes r bm _ _ (by have := h.sameWidth; omega)
      (by have := h.sameHeight; omega) hleft htop)]
  have hok := copyRows_ok bm gb.handle.base (gb.handle.width * 4 * cropTop r)
    (gb.handle.width * 4) (bm.width * 4) (cropLeft r) 4 hpix bm.height.toNat 0 w
  generalize copyRows bm gb.handle.base (gb.handle.width * 4 * cropTop r)
    (gb.handle.width * 4) (bm.width * 4) (cropLeft r) 4 bm.height.toNat 0 w = res at hok
  obtain ⟨o, w1⟩ := res
  simp only at hok
  subst hok
  rfl

/-! ## The filter flag -/

/-- For a destination size in the range of a non-negative `int`, `requiresFilter` says
whether the sampled region and the destination differ in size. -/
theorem requiresFilter_iff (tex : Texture) (r : Rect) (dw dh : Int)
    (hw : 0 ≤ dw) (hw1 : dw < 2147483648) (hh : 0 ≤ dh) (hh1 : dh < 2147483648) :
    (r.isEmpty = false →
      (requiresFilter tex r dw dh = true ↔ (r.getWidth ≠ dw ∨ r.getHeight ≠ dh)))
    ∧ (r.isEmpty = true →
      (requiresFilter tex r dw dh = true ↔ ((tex.width : Int) ≠ dw ∨ (tex.height : Int) ≠ dh)))
    := by
  have e1 : toUInt32 dw = dw.toNat := by
    unfold toUInt32
    rw [Int.emod_eq_of_lt hw (by omega)]
  have e2 : toUInt32 dh = dh.toNat := by
    unfold toUInt32
    rw [Int.emod_eq_of_lt hh (by omega)]
  constructor
  · intro he
    simp [requiresFilter, he]
  · intro he
    simp only [requiresFilter, he, Bool.not_true, Bool.false_eq_true, if_false, e1, e2,
      Bool.or_eq_true, bne_iff_ne, ne_eq]
    constructor
    · rintro (h | h)
      · left; omega
      · right; omega
    · rintro (h | h)
      · left; omega
      · right; omega

/-- A `copyTextureInto` that succeeds has made exactly the calls of `drawCalls`. -/
theorem copyTextureInto_success_log (env : Env) (caches : Caches) (rs : RenderState)
    (tex : Texture) (t : Matrix4) (r : Rect) (bm : SkBitmap) (w : World)
    (hs : (copyTextureInto env caches rs tex t r bm w).1 = Success) :
    (copyTextureInto env caches rs tex t r bm w).2.log
      = w.log ++ drawCalls tex r bm rs.createFramebuffer (w.lastTexture + 1) := by
  rcases copyTextureInto_cases env caches rs tex t r bm w with h | h | ⟨_, h⟩
  · rw [h] at hs; simp at hs
  · rw [h] at hs; simp at hs
  · rw [h]

/-- The draw is the only `render` call among `drawCalls`, and it carries `requiresFilter`. -/
theorem drawCalls_render (tex : Texture) (r : Rect) (bm : SkBitmap) (fbo texture : Nat)
    (s : Nat) (c f : Bool) :
    Event.render s c f ∈ drawCalls tex r bm fbo texture
      ↔ (s = tex.id ∧ c = (!r.isEmpty) ∧ f = requiresFilter tex r bm.width bm.height) := by
  simp [drawCalls]

/-- In range, the imported texture has the image's dimensions, swapped under rotation. -/
theorem importedTexture_size (t : Matrix4) (iw ih : Int) (w : World)
    (hw : 0 ≤ iw) (hw1 : iw < 2147483648) (hh : 0 ≤ ih) (hh1 : ih < 2147483648) :
    (importedTexture t iw ih w).id = w.lastTexture + 1
    ∧ ((importedTexture t iw ih w).width : Int) = (if isRotated t then ih else iw)
    ∧ ((importedTexture t iw ih w).height : Int) = (if isRotated t then iw else ih) := by
  refine ⟨rfl, ?_, ?_⟩
  · unfold importedTexture toUInt32
    cases isRotated t
    · simp only [Bool.false_eq_true, if_false]
      rw [Int.emod_eq_of_lt hw (by omega), Int.toNat_of_nonneg hw]
    · simp only [if_true]
      rw [Int.emod_eq_of_lt hh (by omega), Int.toNat_of_nonneg hh]
  · unfold importedTexture toUInt32
    cases isRotated t
    · simp only [Bool.false_eq_true, if_false]
      rw [Int.emod_eq_of_lt hh (by omega), Int.toNat_of_nonneg hh]
    · simp only [if_true]
      rw [Int.emod_eq_of_lt hw (by omega), Int.toNat_of_nonneg hw]

/-- A `copyImageInto` that succeeds has drawn the imported texture. -/
theorem copyImageInto_success_render (env : Env) (t : Matrix4) (iw ih : Int) (r : Rect)
    (bm : SkBitmap) (w : World)
    (hs : (copyImageInto env t iw ih r bm w).1 = Success) :
    Event.render (w.lastTexture + 1) (!r.isEmpty)
        (requiresFilter (importedTexture t iw ih w) r bm.width bm.height)
      ∈ (copyImageInto env t iw ih r bm w).2.log := by
  by_cases herr : env.glGetError = GL_NO_ERROR
  · rw [copyImageInto_imported env t iw ih r bm w herr] at hs ⊢
    simp only at hs
    simp only [emit_log]
    rw [copyTextureInto_success_log _ _ _ _ _ _ _ _ hs]
    refine List.mem_append_left _ (List.mem_append_right _ ?_)
    exact (drawCalls_render _ _ _ _ _ _ _ _).2 ⟨rfl, rfl, rfl⟩
  · rw [copyImageInto_import_error env t iw ih r bm w herr] at hs
    simp at hs

/-! ## Source reads within the handle's buffer -/

/-- Under the conditions the checks leave open (a crop offset that is not negative and a
handle whose size covers all of its rows), every row the row loop reads lies inside the
handle's buffer: row `y` is one `memcpy` from a source offset `s` with `0 ≤ s` and
`s + bitmapWidth * 4 ≤ hnd->size`. -/
theorem copyFromPrivateHandle_row_reads_in_bounds (env : Env) (gb : GraphicBuffer)
    (t : Matrix4) (r : Rect) (bm : SkBitmap) (w : World) (h : PassesChecks env gb t r bm)
    (hrows : ¬(r.isEmpty = true ∧ bm.width = gb.handle.width))
    (hpix : bm.hasPixels = true)
    (hleft : cropLeft r + bm.width ≤ gb.handle.width)
    (htop : cropTop r + bm.height ≤ gb.handle.height)
    (hleft0 : 0 ≤ cropLeft r) (htop0 : 0 ≤ cropTop r)
    (hsize : gb.handle.width * 4 * gb.handle.height ≤ gb.handle.size)
    (y : Int) (hy : 0 ≤ y) (hy1 : y < bm.height) :
    ∃ s : Int,
      Event.memcpy (y * bm.rowBytes) s (bm.width * 4).toNat
        ∈ (copyFromPrivateHandle env gb t r bm w).2.log
      ∧ 0 ≤ s ∧ s + bm.width * 4 ≤ gb.handle.size := by
  refine ⟨(cropTop r + y) * (gb.handle.width * 4) + cropLeft r * 4, ?_, ?_, ?_⟩
  · rw [copyFromPrivateHandle_rowwise env gb t r bm w h hrows hpix hleft htop, emit_log,
      copyRows_log _ _ _ _ _ _ _ hpix]
    refine List.mem_append_left _ (List.mem_append_right _ ?_)
    have hm := rowCopies_mem bm (gb.handle.width * 4 * cropTop r) (gb.handle.width * 4)
      (bm.width * 4) (cropLeft r) 4 bm.height.toNat 0 y hy
      (by rw [Int.toNat_of_nonneg (by omega)]; omega)
    have he : gb.handle.width * 4 * cropTop r + y * (gb.handle.width * 4) + cropLeft r * 4
        = (cropTop r + y) * (gb.handle.width * 4) + cropLeft r * 4 := by ring
    rw [he] at hm
    exact hm
  · have hw0 : 0 ≤ bm.width := by have := h.sameWidth; omega
    have : 0 ≤ (cropTop r + y) * (gb.handle.width * 4) :=
      Int.mul_nonneg (by omega) (by have := h.fitsWidth; omega)
    omega
  · have hw0 : 0 ≤ bm.width := by have := h.sameWidth; omega
    have hR : 0 ≤ gb.handle.width * 4 := by have := h.fitsWidth; omega
    have h1 : (cropTop r + y + 1) * (gb.handle.width * 4)
        ≤ gb.handle.height * (gb.handle.width * 4) :=
      Int.mul_le_mul_of_nonneg_right (by omega) hR
    have h2 : (cropTop r + y + 1) * (gb.handle.width * 4)
        = (cropTop r + y) * (gb.handle.width * 4) + gb.handle.width * 4 := by ring
    have h3 : gb.handle.height * (gb.handle.width * 4)
        = gb.handle.width * 4 * gb.handle.height := by ring
    omega

theorem copyFromPrivateHandle_row_reads_in_bounds_witness :
    ∃ s : Int,
      Event.memcpy (1 * bitmap4.rowBytes) s (bitmap4.width * 4).toNat
        ∈ (copyFromPrivateHandle envOn bufferPadded defaultTransform ⟨2, 0, 6, 4⟩ bitmap4
            world0).2.log
      ∧ 0 ≤ s ∧ s + bitmap4.width * 4 ≤ bufferPadded.handle.size :=
  copyFromPrivateHandle_row_reads_in_bounds envOn bufferPadded defaultTransform ⟨2, 0, 6, 4⟩
    bitmap4 world0
    ⟨rfl, by decide, by decide, by decide, rfl, rfl, rfl, by decide, by decide, by decide,
      by decide⟩
    (by decide) rfl (by decide) (by decide) (by decide) (by decide) (by decide) 1
    (by decide) (by decide)

/-! ## The claims on the copy length, the filter flag and the source reads -/

/-- Claim C11 fails on the length of the single copy: in the contiguous branch (empty crop,
bitmap width equal to the handle's width) `copyFromPrivateHandle` calls `memcpy` once with
`hnd->size` bytes, not `stride * height`. The size check only makes `stride * height` a
lower bound of `hnd->size`, and every destination byte below `hnd->size` is overwritten
with the source byte of the same offset, those at and beyond `stride * height` included. -/
theorem copyFromPrivateHandle_contiguous_copies_size (env : Env) (gb : GraphicBuffer)
    (t : Matrix4) (r : Rect) (bm : SkBitmap) (w : World) (h : PassesChecks env gb t r bm)
    (hempty : r.isEmpty = true) (hwidth : bm.width = gb.handle.width)
    (hpix : bm.hasPixels = true) :
    (copyFromPrivateHandle env gb t r bm w).1 = Success
    ∧ (copyFromPrivateHandle env gb t r bm w).2.log
        = w.log ++ [Event.memcpy 0 0 gb.handle.size.toNat, Event.notifyPixelsChanged]
    ∧ gb.handle.width * bm.bytesPerPixel * bm.height ≤ gb.handle.size
    ∧ ∀ a : Int, 0 ≤ a → a < gb.handle.size →
        (copyFromPrivateHandle env gb t r bm w).2.pixels a = gb.handle.base a := by
  rw [copyFromPrivateHandle_contiguous env gb t r bm w h hempty hwidth hpix]
  have hbpp : bm.bytesPerPixel = 4 := by
    simp [SkBitmap.bytesPerPixel, h.colorType, SkColorType.bytesPerPixel]
  refine ⟨rfl, ?_, ?_, ?_⟩
  · simp [World.emit, World.memcpy]
  · rw [hbpp]; exact h.sizeMin
  · intro a ha ha1
    simp only [emit_pixels, memcpy_pixels]
    unfold memcpyInto
    have hcast : ((gb.handle.size.toNat : Nat) : Int) = gb.handle.size :=
      Int.toNat_of_nonneg h.sizeNonneg
    rw [if_pos (by omega)]
    congr 1
    omega

theorem copyFromPrivateHandle_contiguous_copies_size_witness :
    PassesChecks envOn bufferHD defaultTransform Rect.empty bitmapHD
    ∧ bufferHD.handle.width * bitmapHD.bytesPerPixel * bitmapHD.height = 8294400
    ∧ (copyFromPrivateHandle envOn bufferHD defaultTransform Rect.empty bitmapHD world0).2.log
        = world0.log ++ [Event.memcpy 0 0 8355840, Event.notifyPixelsChanged]
    ∧ (copyFromPrivateHandle envOn bufferHD defaultTransform Rect.empty bitmapHD
          world0).2.pixels 8294400 = sourceBytes 8294400
    ∧ sourceBytes 8294400 ≠ world0.pixels 8294400 :=
  have hc : PassesChecks envOn bufferHD defaultTransform Rect.empty bitmapHD :=
    ⟨rfl, by decide, by decide, by decide, rfl, rfl, rfl, by decide, by decide, by decide,
      by decide⟩
  have h := copyFromPrivateHandle_contiguous_copies_size envOn bufferHD defaultTransform
    Rect.empty bitmapHD world0 hc (by decide) (by decide) rfl
  ⟨hc, by decide, h.2.1, h.2.2.2 8294400 (by decide) (by decide), by decide⟩

/-- Claim C12: whenever `copyTextureInto` draws (returns `Success`), the draw is its one
`render` call and the `requiresFilter` flag it carries is true exactly when the sampled
region and the destination differ in size: for a non-empty crop iff the crop's width or
height differs from the destination's, for an empty crop iff the source texture's width or
height does; so it is false for every 1:1 copy. Inside `copyImageInto` the source texture is
the imported one, whose width and height are the image's, swapped when the transform is a
90 or 270 degree rotation. Sizes are in the range of a non-negative `int`. -/
theorem copyTextureInto_requiresFilter (tex : Texture) (r : Rect) (bm : SkBitmap)
    (hw : 0 ≤ bm.width) (hw1 : bm.width < 2147483648)
    (hh : 0 ≤ bm.height) (hh1 : bm.height < 2147483648) :
    (∀ (env : Env) (caches : Caches) (rs : RenderState) (t : Matrix4) (w : World),
      (copyTextureInto env caches rs tex t r bm w).1 = Success →
        (copyTextureInto env caches rs tex t r bm w).2.log
          = w.log ++ drawCalls tex r bm rs.createFramebuffer (w.lastTexture + 1)
        ∧ ∀ (s : Nat) (c f : Bool),
            Event.render s c f ∈ drawCalls tex r bm rs.createFramebuffer (w.lastTexture + 1)
              ↔ (s = tex.id ∧ c = (!r.isEmpty)
                  ∧ f = requiresFilter tex r bm.width bm.height))
    ∧ (r.isEmpty = false →
        (requiresFilter tex r bm.width bm.height = true
          ↔ (r.getWidth ≠ bm.width ∨ r.getHeight ≠ bm.height)))
    ∧ (r.isEmpty = true →
        (requiresFilter tex r bm.width bm.height = true
          ↔ ((tex.width : Int) ≠ bm.width ∨ (tex.height : Int) ≠ bm.height)))
    ∧ (∀ (env : Env) (t : Matrix4) (iw ih : Int) (w : World),
        0 ≤ iw → iw < 2147483648 → 0 ≤ ih → ih < 2147483648 →
        (copyImageInto env t iw ih r bm w).1 = Success →
          Event.render (w.lastTexture + 1) (!r.isEmpty)
              (requiresFilter (importedTexture t iw ih w) r bm.width bm.height)
            ∈ (copyImageInto env t iw ih r bm w).2.log
          ∧ ((importedTexture t iw ih w).width : Int) = (if isRotated t then ih else iw)
          ∧ ((importedTexture t iw ih w).height : Int) = (if isRotated t then iw else ih)) := by
  have hr := requiresFilter_iff tex r bm.width bm.height hw hw1 hh hh1
  refine ⟨?_, hr.1, hr.2, ?_⟩
  · intro env caches rs t w hs
    exact ⟨copyTextureInto_success_log env caches rs tex t r bm w hs,
      fun s c f => drawCalls_render tex r bm _ _ s c f⟩
  · intro env t iw ih w h1 h2 h3 h4 hs
    have hsz := importedTexture_size t iw ih w h1 h2 h3 h4
    exact ⟨copyImageInto_success_render env t iw ih r bm w hs, hsz.2.1, hsz.2.2⟩

theorem copyTextureInto_requiresFilter_witness :
    Event.render 1 false true
      ∈ (copyTextureInto envOn envOn.caches envOn.renderState ⟨1, 8, 8⟩ defaultTransform
          Rect.empty bitmap4 world0).2.log
    ∧ (requiresFilter ⟨1, 8, 8⟩ Rect.empty bitmap4.width bitmap4.height = true
        ↔ (((8 : Nat) : Int) ≠ bitmap4.width ∨ ((8 : Nat) : Int) ≠ bitmap4.height))
    ∧ requiresFilter ⟨1, 4, 4⟩ Rect.empty bitmap4.width bitmap4.height = false :=
  have h := copyTextureInto_requiresFilter ⟨1, 8, 8⟩ Rect.empty bitmap4 (by decide) (by decide)
    (by decide) (by decide)
  ⟨by
      rw [(h.1 envOn envOn.caches envOn.renderState defaultTransform world0 (by decide)).1]
      decide,
    h.2.2.1 rfl, by decide⟩

/-- Claim C13 fails because the checks bound the crop offset from above only. Once they have
passed, the row loop reads row `y` with one `memcpy` of `bitmapWidth * 4` bytes from source
offset `(top + y) * (bufferWidth * 4) + left * 4`, whatever the sign of `left` and `top` and
however `hnd->size` compares with `(top + bitmapHeight) * bufferWidth * 4`. -/
theorem copyFromPrivateHandle_row_reads (env : Env) (gb : GraphicBuffer) (t : Matrix4)
    (r : Rect) (bm : SkBitmap) (w : World) (h : PassesChecks env gb t r bm)
    (hrows : ¬(r.isEmpty = true ∧ bm.width = gb.handle.width))
    (hpix : bm.hasPixels = true)
    (hleft : cropLeft r + bm.width ≤ gb.handle.width)
    (htop : cropTop r + bm.height ≤ gb.handle.height) :
    (copyFromPrivateHandle env gb t r bm w).1 = Success
    ∧ (copyFromPrivateHandle env gb t r bm w).2.log
        = w.log ++ rowCopies bm (gb.handle.width * 4 * cropTop r) (gb.handle.width * 4)
            (bm.width * 4) (cropLeft r) 4 bm.height.toNat 0 ++ [Event.notifyPixelsChanged]
    ∧ ∀ y : Int, 0 ≤ y → y < bm.height →
        Event.memcpy (y * bm.rowBytes)
            ((cropTop r + y) * (gb.handle.width * 4) + cropLeft r * 4) (bm.width * 4).toNat
          ∈ (copyFromPrivateHandle env gb t r bm w).2.log := by
  rw [copyFromPrivateHandle_rowwise env gb t r bm w h hrows hpix hleft htop]
  have hlog := copyRows_log bm gb.handle.base (gb.handle.width * 4 * cropTop r)
    (gb.handle.width * 4) (bm.width * 4) (cropLeft r) 4 hpix bm.height.toNat 0 w
  refine ⟨rfl, ?_, ?_⟩
  · simp only [emit_log, hlog]
  · intro y hy hy1
    simp only [emit_log, hlog]
    refine List.mem_append_left _ (List.mem_append_right _ ?_)
    have hw0 : 0 ≤ bm.height := by have := h.sameHeight; omega
    have hm := rowCopies_mem bm (gb.handle.width * 4 * cropTop r) (gb.handle.width * 4)
      (bm.width * 4) (cropLeft r) 4 bm.height.toNat 0 y hy
      (by rw [Int.toNat_of_nonneg hw0]; omega)
    have he : gb.handle.width * 4 * cropTop r + y * (gb.handle.width * 4) + cropLeft r * 4
        = (cropTop r + y) * (gb.handle.width * 4) + cropLeft r * 4 := by ring
    rw [he] at hm
    exact hm

theorem copyFromPrivateHandle_row_reads_witness :
    PassesChecks envOn buffer4 defaultTransform ⟨-1, 0, 3, 4⟩ bitmap4
    ∧ cropLeft ⟨-1, 0, 3, 4⟩ + bitmap4.width ≤ buffer4.handle.width
    ∧ cropTop ⟨-1, 0, 3, 4⟩ + bitmap4.height ≤ buffer4.handle.height
    ∧ (copyFromPrivateHandle envOn buffer4 defaultTransform ⟨-1, 0, 3, 4⟩ bitmap4 world0).1
        = Success
    ∧ Event.memcpy 0 (-4) 16
        ∈ (copyFromPrivateHandle envOn buffer4 defaultTransform ⟨-1, 0, 3, 4⟩ bitmap4
            world0).2.log
    ∧ (copyFromPrivateHandle envOn buffer4 defaultTransform ⟨-1, 0, 3, 4⟩ bitmap4
          world0).2.pixels 0 = buffer4.handle.base (-4) :=
  have hc : PassesChecks envOn buffer4 defaultTransform ⟨-1, 0, 3, 4⟩ bitmap4 :=
    ⟨rfl, by decide, by decide, by decide, rfl, rfl, rfl, by decide, by decide, by decide,
      by decide⟩
  have h := copyFromPrivateHandle_row_reads envOn buffer4 defaultTransform ⟨-1, 0, 3, 4⟩
    bitmap4 world0 hc (by decide) rfl (by decide) (by decide)
  ⟨hc, by decide, by decide, h.1, h.2.2 0 (by decide) (by decide), by decide⟩

end Readback
